import Mathlib

/-!
Verification of the `strim` repository: a shallow embedding of
  * the RTMP ingest server's media-routing handlers (`src/strim/src/server.rs`),
  * the operator's reconcile decision logic (`src/operator/src/strims/reconcile.rs`
    and `src/operator/src/strims/actions.rs`), and
  * the HLS uploader worker (`src/peggy/src/app.rs`),
together with theorems settling the frozen claims about the system.

External collaborators (the `rml_rtmp` session library, the Kubernetes API,
the S3 client, `chrono` timestamp parsing) are modelled as oracle parameters:
the session's fallible send/accept operations become `Bool`/`Option` arguments
describing their outcome, exactly as the specification treats them
("an opaque collaborator exposing handleInput/acceptRequest/send*").
-/

namespace StrimVerify

/-! ## Association lists

`HashMap`/`Slab` lookups in the Rust source are modelled with simple
association lists keyed by `Nat` (slab indices / connection ids) or `String`
(stream keys). -/

/-- Lookup in an association list (models `HashMap::get` / `Slab::get`). -/
def alookup {α : Type} [DecidableEq α] {β : Type} : List (α × β) → α → Option β
  | [], _ => none
  | (k, v) :: rest, key => if key = k then some v else alookup rest key

/-- Insert-or-replace in an association list (models `HashMap::insert` and
in-place mutation through `get_mut`). -/
def aupdate {α : Type} [DecidableEq α] {β : Type} : List (α × β) → α → β → List (α × β)
  | [], k, v => [(k, v)]
  | (k', v') :: rest, k, v =>
      if k = k' then (k, v) :: rest else (k', v') :: aupdate rest k v

theorem alookup_aupdate_self {α : Type} [DecidableEq α] {β : Type}
    (l : List (α × β)) (k : α) (v : β) : alookup (aupdate l k v) k = some v := by
  induction l with
  | nil => simp [aupdate, alookup]
  | cons hd tl ih =>
      obtain ⟨k', v'⟩ := hd
      by_cases h : k = k' <;> simp [aupdate, alookup, h, ih]

theorem alookup_aupdate_ne {α : Type} [DecidableEq α] {β : Type}
    (l : List (α × β)) (k k' : α) (v : β) (h : k' ≠ k) :
    alookup (aupdate l k v) k' = alookup l k' := by
  induction l with
  | nil => simp [aupdate, alookup, h]
  | cons hd tl ih =>
      obtain ⟨k₀, v₀⟩ := hd
      by_cases hk : k = k₀
      · subst hk
        simp [aupdate, alookup, h]
      · by_cases hk' : k' = k₀ <;> simp [aupdate, alookup, hk, hk', ih]

/-- Membership-preserving insert (models `HashSet::insert`). -/
def hsInsert (l : List Nat) (x : Nat) : List Nat :=
  if x ∈ l then l else l ++ [x]

/-! ## Ingest server data model (`src/strim/src/server.rs`)

Payload bytes are modelled as `List Nat` (each entry one byte); RTMP
timestamps as `Nat`; stream metadata as an opaque `Nat` identifier
(the server only stores and forwards it by reference). -/

/-- enum `ReceivedDataType` in `server.rs`. -/
inductive ReceivedDataType
  | Audio
  | Video
  deriving DecidableEq, Repr

/-- enum `InboundClientAction` in `server.rs`. -/
inductive InboundClientAction
  | Waiting
  | Publishing (streamKey : String)
  | Watching (streamKey : String) (streamId : Nat)
  deriving DecidableEq, Repr

/-- struct `InboundClient` in `server.rs` (the opaque `ServerSession` field
is replaced by oracle parameters at each call site). -/
structure InboundClient where
  currentAction : InboundClientAction
  connectionId : Nat
  hasReceivedVideoKeyframe : Bool
  deriving DecidableEq, Repr

/-- `InboundClient::get_active_stream_id` in `server.rs`. -/
def get_active_stream_id (c : InboundClient) : Option Nat :=
  match c.currentAction with
  | InboundClientAction.Waiting => none
  | InboundClientAction.Publishing _ => none
  | InboundClientAction.Watching _ sid => some sid

/-- struct `MediaChannel` in `server.rs`.  `watchingClientIds` is a
`HashSet<usize>` in the source; it is modelled as a duplicate-free list. -/
structure MediaChannel where
  publishingClientId : Option Nat
  watchingClientIds : List Nat
  metadata : Option Nat
  videoSequenceHeader : Option (List Nat)
  audioSequenceHeader : Option (List Nat)
  deriving DecidableEq, Repr

/-- A fresh `MediaChannel` as built by the `or_insert` calls in
`handle_publish_requested` / `handle_play_requested`. -/
def emptyChannel : MediaChannel :=
  { publishingClientId := none
    watchingClientIds := []
    metadata := none
    videoSequenceHeader := none
    audioSequenceHeader := none }

/-- An RTMP packet produced by the opaque session's `send_*` methods;
modelled by what the server put in (kind, payload, timestamp). -/
inductive MPacket
  | video (data : List Nat) (timestamp : Nat)
  | audio (data : List Nat) (timestamp : Nat)
  | meta (m : Nat)
  | sessionReply (n : Nat)
  deriving DecidableEq, Repr

/-- enum `ServerResult` in `server.rs`. -/
inductive ServerResult
  | DisconnectConnection (connectionId : Nat)
  | OutboundPacket (targetConnectionId : Nat) (packet : MPacket)
  | StartPushing
  deriving DecidableEq, Repr

/-- `fn is_video_sequence_header` in `server.rs`:
`data.len() >= 2 && data[0] == 0x17 && data[1] == 0x00`. -/
def is_video_sequence_header (data : List Nat) : Bool :=
  match data with
  | b0 :: b1 :: _ => b0 == 0x17 && b1 == 0x00
  | _ => false

/-- `fn is_audio_sequence_header` in `server.rs`:
`data.len() >= 2 && data[0] == 0xaf && data[1] == 0x00`. -/
def is_audio_sequence_header (data : List Nat) : Bool :=
  match data with
  | b0 :: b1 :: _ => b0 == 0xaf && b1 == 0x00
  | _ => false

/-- `fn is_video_keyframe` in `server.rs`:
`data.len() >= 2 && data[0] == 0x17 && data[1] != 0x00`. -/
def is_video_keyframe (data : List Nat) : Bool :=
  match data with
  | b0 :: b1 :: _ => b0 == 0x17 && !(b1 == 0x00)
  | _ => false

example : is_video_sequence_header [0x17, 0x00, 1, 2] = true := by decide
example : is_video_keyframe [0x17, 0x01] = true := by decide
example : is_video_keyframe [0x17] = false := by decide
example : is_audio_sequence_header [0xaf, 0x00] = true := by decide

/-! ## SHA-256

`server.rs` names the Pipeline record after the first 8 hex characters of a
SHA-256 digest (via the external `sha2` crate).  The digest function is
embedded here in full (FIPS 180-4) over byte lists, with 32-bit words as
`Nat` reduced mod `2^32`. -/

/-- `2^32 - 1`, the mask for 32-bit words. -/
def umask32 : Nat := 4294967295

/-- 32-bit addition. -/
def add32 (x y : Nat) : Nat := (x + y) % 4294967296

/-- Rotate a 32-bit word right by `n`. -/
def rotr32 (n x : Nat) : Nat := ((x >>> n) ||| (x <<< (32 - n))) &&& umask32

/-- Bitwise complement of a 32-bit word. -/
def not32 (x : Nat) : Nat := umask32 ^^^ x

/-- SHA-256 `Σ0`. -/
def bigSigma0 (x : Nat) : Nat := rotr32 2 x ^^^ rotr32 13 x ^^^ rotr32 22 x

/-- SHA-256 `Σ1`. -/
def bigSigma1 (x : Nat) : Nat := rotr32 6 x ^^^ rotr32 11 x ^^^ rotr32 25 x

/-- SHA-256 `σ0`. -/
def smallSigma0 (x : Nat) : Nat := rotr32 7 x ^^^ rotr32 18 x ^^^ (x >>> 3)

/-- SHA-256 `σ1`. -/
def smallSigma1 (x : Nat) : Nat := rotr32 17 x ^^^ rotr32 19 x ^^^ (x >>> 10)

/-- SHA-256 `Ch`. -/
def chWord (x y z : Nat) : Nat := (x &&& y) ^^^ (not32 x &&& z)

/-- SHA-256 `Maj`. -/
def majWord (x y z : Nat) : Nat := (x &&& y) ^^^ (x &&& z) ^^^ (y &&& z)

/-- The 64 SHA-256 round constants of FIPS 180-4 (the fractional parts of
the cube roots of the first 64 primes), in decimal. -/
def sha256K : List Nat :=
  [1116352408, 1899447441, 3049323471, 3921009573,
   961987163, 1508970993, 2453635748, 2870763221,
   3624381080, 310598401, 607225278, 1426881987,
   1925078388, 2162078206, 2614888103, 3248222580,
   3835390401, 4022224774, 264347078, 604807628,
   770255983, 1249150122, 1555081692, 1996064986,
   2554220882, 2821834349, 2952996808, 3210313671,
   3336571891, 3584528711, 113926993, 338241895,
   666307205, 773529912, 1294757372, 1396182291,
   1695183700, 1986661051, 2177026350, 2456956037,
   2730485921, 2820302411, 3259730800, 3345764771,
   3516065817, 3600352804, 4094571909, 275423344,
   430227734, 506948616, 659060556, 883997877,
   958139571, 1322822218, 1537002063, 1747873779,
   1955562222, 2024104815, 2227730452, 2361852424,
   2428436474, 2756734187, 3204031479, 3329325298]

/-- The SHA-256 initial hash value of FIPS 180-4, in decimal. -/
def sha256H0 : List Nat :=
  [1779033703, 3144134277, 1013904242, 2773480762,
   1359893119, 2600822924, 528734635, 1541459225]

/-- The `n` low-order bytes of `x`, big-endian. -/
def beBytes : Nat → Nat → List Nat
  | 0, _ => []
  | n + 1, x => beBytes n (x >>> 8) ++ [x &&& 255]

/-- The `n` low-order bytes of `x`, little-endian
(models `usize::to_le_bytes` with `n = 8`). -/
def leBytes : Nat → Nat → List Nat
  | 0, _ => []
  | n + 1, x => (x &&& 255) :: leBytes n (x >>> 8)

/-- SHA-256 message padding: `0x80`, zeros to 56 mod 64, then the bit length
as 8 big-endian bytes. -/
def sha256Pad (msg : List Nat) : List Nat :=
  let len := msg.length
  let padZeros := (119 - (len % 64)) % 64
  msg ++ [0x80] ++ List.replicate padZeros 0 ++ beBytes 8 (len * 8)

/-- Pack a byte list into big-endian 32-bit words. -/
def toWords : List Nat → List Nat
  | b0 :: b1 :: b2 :: b3 :: rest =>
      ((b0 <<< 24) ||| (b1 <<< 16) ||| (b2 <<< 8) ||| b3) :: toWords rest
  | _ => []

/-- Extend the 16-word message schedule by `n` further words. -/
def sha256Extend : Nat → List Nat → List Nat
  | 0, w => w
  | n + 1, w =>
      let i := w.length
      let wi :=
        add32 (add32 (smallSigma1 (w.getD (i - 2) 0)) (w.getD (i - 7) 0))
          (add32 (smallSigma0 (w.getD (i - 15) 0)) (w.getD (i - 16) 0))
      sha256Extend n (w ++ [wi])

/-- One SHA-256 round on the 8-word working state. -/
def sha256Round (st : List Nat) (wk : Nat × Nat) : List Nat :=
  match st with
  | [a, b, c, d, e, f, g, h] =>
      let t1 := add32 h (add32 (bigSigma1 e) (add32 (chWord e f g) (add32 wk.2 wk.1)))
      let t2 := add32 (bigSigma0 a) (majWord a b c)
      [add32 t1 t2, a, b, c, add32 d t1, e, f, g]
  | other => other

/-- SHA-256 compression of one 64-byte block into the hash state. -/
def sha256Compress (h : List Nat) (block : List Nat) : List Nat :=
  let w := sha256Extend 48 (toWords block)
  let final := (List.zip w sha256K).foldl sha256Round h
  List.zipWith add32 h final

/-- Split into `n` successive 64-byte blocks. -/
def sha256Blocks : Nat → List Nat → List (List Nat)
  | 0, _ => []
  | n + 1, l => l.take 64 :: sha256Blocks n (l.drop 64)

/-- SHA-256 of a byte list, as the 32-byte digest. -/
def sha256 (msg : List Nat) : List Nat :=
  let padded := sha256Pad msg
  let blocks := sha256Blocks (padded.length / 64) padded
  (blocks.foldl sha256Compress sha256H0).foldr
    (fun w acc => beBytes 4 w ++ acc) []

/-- Lowercase hex digit. -/
def hexDigitChar (n : Nat) : Char :=
  if n < 10 then Char.ofNat (48 + n) else Char.ofNat (87 + n)

/-- Two-character lowercase hex of a byte. -/
def hexByte (b : Nat) : String :=
  String.mk [hexDigitChar (b / 16), hexDigitChar (b % 16)]

/-- Lowercase hex string of a byte list (models `format!("{:x}", digest)`). -/
def hexDigest (bytes : List Nat) : String :=
  String.join (bytes.map hexByte)

/-- UTF-8 encoding of one code point. -/
def utf8Bytes (c : Nat) : List Nat :=
  if c < 0x80 then [c]
  else if c < 0x800 then
    [0xc0 ||| (c >>> 6), 0x80 ||| (c &&& 0x3f)]
  else if c < 0x10000 then
    [0xe0 ||| (c >>> 12), 0x80 ||| ((c >>> 6) &&& 0x3f), 0x80 ||| (c &&& 0x3f)]
  else
    [0xf0 ||| (c >>> 18), 0x80 ||| ((c >>> 12) &&& 0x3f),
     0x80 ||| ((c >>> 6) &&& 0x3f), 0x80 ||| (c &&& 0x3f)]

/-- UTF-8 bytes of a string (models `str::as_bytes`). -/
def strBytes (s : String) : List Nat :=
  (s.data.map (fun c => utf8Bytes c.toNat)).flatten

/-- `fn stream_hash` in `server.rs`: first 8 hex characters of
`sha256(stream_key ++ pod_ip ++ entropy.to_le_bytes())`. -/
def stream_hash (podIp streamKey : String) (entropy : Nat) : String :=
  (hexDigest (sha256 (strBytes streamKey ++ strBytes podIp ++ leBytes 8 entropy))).take 8

/-- `fn pod_name` in `server.rs`: `("ffmpeg-" + hash, hash)`. -/
def pod_name (podIp streamKey : String) (entropy : Nat) : String × String :=
  let hash := stream_hash podIp streamKey entropy
  ("ffmpeg-" ++ hash, hash)

/-- enum `PushState` in `server.rs`. -/
inductive PushState
  | Inactive
  | WaitingForConnection
  | Handshaking
  | Connecting
  | Connected
  | Pushing
  deriving DecidableEq, Repr

/-- struct `PushClient` in `server.rs` (opaque `ClientSession` dropped;
its fallible publish calls become oracles). -/
structure PushClient where
  connectionId : Option Nat
  pushApp : String
  pushSourceStream : String
  pushTargetStream : String
  state : PushState
  deriving DecidableEq, Repr

/-- struct `ResourceReference` in `server.rs`; the source field `namespace`
is a Lean keyword and is called `nspace` here. -/
structure ResourceReference where
  name : String
  nspace : String
  deriving DecidableEq, Repr

/-- struct `Target` in `src/strim/src/args.rs` (field `key_prefix`
in the source is called `keyPfx` here). -/
structure Target where
  bucket : String
  endpoint : String
  region : String
  secret : String
  keyPfx : String
  deriving DecidableEq, Repr

/-- struct `Server` in `server.rs`: the in-memory routing state owned by the
event loop.  The `kube::Client` handle and the pull client are external
collaborators and are not part of the routed media state. -/
structure Server where
  podIp : String
  podName : String
  podUid : String
  port : Nat
  nspace : String
  clients : List (Nat × InboundClient)
  connectionToClientMap : List (Nat × Nat)
  connectionGc : List (Nat × ResourceReference)
  channels : List (String × MediaChannel)
  pushClient : Option PushClient
  target : Option Target
  deriving DecidableEq, Repr

/-! ## Pipeline record schema (`src/types/src/lib.rs`) and Kubernetes
metadata (the fields of `k8s_openapi::ObjectMeta` the code reads/writes). -/

/-- struct `StrimSource` in `types/src/lib.rs`. -/
structure StrimSource where
  internal_url : String
  deriving DecidableEq, Repr

/-- struct `StrimTarget` in `types/src/lib.rs` (source field `key_prefix`
is called `keyPfx` here). -/
structure StrimTarget where
  bucket : String
  endpoint : String
  region : String
  secret : String
  keyPfx : String
  deleteOldSegmentsAfter : Option String
  deriving DecidableEq, Repr

/-- struct `StrimSpec` in `types/src/lib.rs`. -/
structure StrimSpec where
  source : StrimSource
  target : StrimTarget
  transcribe : Bool
  deriving DecidableEq, Repr

/-- enum `StrimPhase` in `types/src/lib.rs`. -/
inductive StrimPhase
  | Pending
  | Starting
  | Error
  | Active
  | Terminating
  deriving DecidableEq, Repr

/-- struct `StrimStatus` in `types/src/lib.rs`. -/
structure StrimStatus where
  phase : StrimPhase
  message : Option String
  lastUpdated : Option String
  deriving DecidableEq, Repr

/-- `k8s_openapi` `OwnerReference`, the fields the server populates. -/
structure OwnerReference where
  apiVersion : String
  kind : String
  name : String
  uid : String
  controller : Option Bool
  blockOwnerDeletion : Option Bool
  deriving DecidableEq, Repr

/-- `k8s_openapi` `ObjectMeta`, restricted to the fields the code reads or
writes (`namespace` is a Lean keyword and is called `nspace`; `annotations`
is called `annots`; the annotation map is an association list). -/
structure ObjectMeta where
  name : Option String
  nspace : Option String
  annots : Option (List (String × String))
  labels : Option (List (String × String))
  ownerReferences : Option (List OwnerReference)
  deletionTimestamp : Option String
  deriving DecidableEq, Repr

/-- The `Strim` custom resource (`types/src/lib.rs`): metadata + spec +
optional status. -/
structure Strim where
  metadata : ObjectMeta
  spec : StrimSpec
  status : Option StrimStatus
  deriving DecidableEq, Repr

/-- The session packet built by `send_video_data` / `send_audio_data` for a
given payload and timestamp (`server.rs` forwards the received payload). -/
def mkDataPacket (dt : ReceivedDataType) (data : List Nat) (ts : Nat) : MPacket :=
  match dt with
  | ReceivedDataType.Video => MPacket.video data ts
  | ReceivedDataType.Audio => MPacket.audio data ts

/-- The per-watcher routing decision inside the `for client_id` loop of
`handle_audio_video_data_received` (`server.rs`, `should_send_to_client`). -/
def should_send_to_client (dt : ReceivedDataType) (c : InboundClient)
    (data : List Nat) : Bool :=
  match dt with
  | ReceivedDataType.Video =>
      c.hasReceivedVideoKeyframe
        || (is_video_sequence_header data || is_video_keyframe data)
  | ReceivedDataType.Audio =>
      c.hasReceivedVideoKeyframe || is_audio_sequence_header data

/-- The flag update inside the video branch of the per-watcher send in
`handle_audio_video_data_received` (`server.rs`): before the send is
attempted, `has_received_video_keyframe` is set when the payload is a video
keyframe; audio payloads never change the flag. -/
def flagForData (dt : ReceivedDataType) (data : List Nat)
    (c : InboundClient) : InboundClient :=
  match dt with
  | ReceivedDataType.Video =>
      if is_video_keyframe data then
        { c with hasReceivedVideoKeyframe := true }
      else c
  | ReceivedDataType.Audio => c

/-- The connection id a `ServerResult` targets. -/
def targetConnId : ServerResult → Option Nat
  | ServerResult.DisconnectConnection c => some c
  | ServerResult.OutboundPacket t _ => some t
  | ServerResult.StartPushing => none

/-- The `for client_id in &channel.watching_client_ids` loop of
`handle_audio_video_data_received` in `server.rs`.  For each watcher id:
look the client up (skip if gone), get its active stream id (skip if not
watching), compute `should_send_to_client` (skip when false); for video
keyframes set `has_received_video_keyframe` before attempting the send; a
successful send (per the `sendOk` oracle, indexed by client id) emits an
`OutboundPacket` to the watcher's connection, a failed one emits
`DisconnectConnection`.  Returns the updated client map and the emitted
results in iteration order. -/
def route_watchers (sendOk : Nat → Bool) (dt : ReceivedDataType) (ts : Nat)
    (data : List Nat) :
    List Nat → List (Nat × InboundClient) →
      List (Nat × InboundClient) × List ServerResult
  | [], clients => (clients, [])
  | cid :: rest, clients =>
      match alookup clients cid with
      | none => route_watchers sendOk dt ts data rest clients
      | some c =>
          match get_active_stream_id c with
          | none => route_watchers sendOk dt ts data rest clients
          | some _sid =>
              if should_send_to_client dt c data then
                let c' := flagForData dt data c
                let clients' := aupdate clients cid c'
                let res :=
                  if sendOk cid then
                    ServerResult.OutboundPacket c.connectionId
                      (mkDataPacket dt data ts)
                  else
                    ServerResult.DisconnectConnection c.connectionId
                let rec' := route_watchers sendOk dt ts data rest clients'
                (rec'.1, res :: rec'.2)
              else
                route_watchers sendOk dt ts data rest clients

/-- The trailing push-forwarding block of `handle_audio_video_data_received`
(`server.rs`), specialised to what it does when the push client is in the
`Pushing` state: a successful `publish_*` call (per `pushPublishOk`) yields a
single `OutboundResponse` packet which `handle_push_session_results` forwards
to the push client's own connection (the push state is `Pushing`, not
`Handshaking`, and no event is raised); a failed publish is only logged. -/
def pushForward (pushPublishOk : Bool) (pc? : Option PushClient)
    (pkt : MPacket) : List ServerResult :=
  match pc? with
  | some pc =>
      if pc.state = PushState.Pushing then
        if pushPublishOk then
          match pc.connectionId with
          | some pcid => [ServerResult.OutboundPacket pcid pkt]
          | none => []
        else []
      else []
  | none => []

/-- `Server::handle_audio_video_data_received` in `server.rs`.

Oracles: `sendOk` decides per client id whether the session's
`send_audio_data`/`send_video_data` call succeeds; `pushPublishOk` whether the
push session's `publish_*` call succeeds (see `pushForward`). -/
def handle_audio_video_data_received (sendOk : Nat → Bool)
    (pushPublishOk : Bool) (s : Server) (streamKey : String) (ts : Nat)
    (data : List Nat) (dt : ReceivedDataType) : Server × List ServerResult :=
  match alookup s.channels streamKey with
  | none => (s, [])
  | some channel =>
      let channel' :=
        match dt with
        | ReceivedDataType.Video =>
            if is_video_sequence_header data then
              { channel with videoSequenceHeader := some data }
            else channel
        | ReceivedDataType.Audio =>
            if is_audio_sequence_header data then
              { channel with audioSequenceHeader := some data }
            else channel
      let routed :=
        route_watchers sendOk dt ts data channel'.watchingClientIds s.clients
      let s' := { s with
        channels := aupdate s.channels streamKey channel'
        clients := routed.1 }
      let pushResults : List ServerResult :=
        pushForward pushPublishOk s.pushClient (mkDataPacket dt data ts)
      (s', routed.2 ++ pushResults)

/-- `Server::handle_publish_requested` in `server.rs`.

Oracles: `acceptOutcome` is the outcome of the opaque session's
`accept_request` (`some rs` = `Ok` with the session's outbound reply packets,
`none` = `Err`); `entropy` is the `rand::random::<u64>() as usize` nonce.

Returns the new server state, the emitted `ServerResult`s, and the `Strim`
resource whose creation is spawned on the cluster API (`none` when nothing is
enqueued).  Mirrors the source's control flow: duplicate-publisher rejection
returns immediately; otherwise the client is moved to `Publishing`, the
channel's publisher is set, the request is accepted (an `Err` only pushes
`DisconnectConnection`), the push client may be started, and — whether or not
acceptance succeeded — when a target is configured the `connectionGc` entry is
registered and the Pipeline record creation is enqueued.  The source unwraps
the connection→client lookups; a missing entry (unreachable in the event
loop, which inserts it in `bytes_received`) is modelled as a no-op. -/
def handle_publish_requested (acceptOutcome : Option (List MPacket))
    (entropy : Nat) (s : Server) (requestedConnectionId _requestId : Nat)
    (appName streamKey : String) :
    Server × List ServerResult × Option Strim :=
  let alreadyPublished :=
    match alookup s.channels streamKey with
    | some channel => channel.publishingClientId.isSome
    | none => false
  if alreadyPublished then
    (s, [ServerResult.DisconnectConnection requestedConnectionId], none)
  else
    match alookup s.connectionToClientMap requestedConnectionId with
    | none => (s, [], none)
    | some clientId =>
        match alookup s.clients clientId with
        | none => (s, [], none)
        | some client =>
            let client1 :=
              { client with
                currentAction := InboundClientAction.Publishing streamKey }
            let channel0 := (alookup s.channels streamKey).getD emptyChannel
            let channel1 := { channel0 with publishingClientId := some clientId }
            let s1 := { s with
              clients := aupdate s.clients clientId client1
              channels := aupdate s.channels streamKey channel1 }
            let accepted :=
              match acceptOutcome with
              | none =>
                  (s1, [ServerResult.DisconnectConnection requestedConnectionId])
              | some rs =>
                  let pushStep :=
                    match s1.pushClient with
                    | some pc =>
                        if pc.state = PushState.Inactive then
                          if appName = pc.pushApp ∧ streamKey = pc.pushSourceStream then
                            (some { pc with state := PushState.WaitingForConnection },
                             [ServerResult.StartPushing])
                          else (some pc, ([] : List ServerResult))
                        else (some pc, [])
                    | none => (none, [])
                  ({ s1 with pushClient := pushStep.1 },
                   pushStep.2 ++ rs.map
                     (ServerResult.OutboundPacket requestedConnectionId))
            let s2 := accepted.1
            let results := accepted.2
            let name := (pod_name s.podIp streamKey entropy).1
            match s.target with
            | none => (s2, results, none)
            | some target =>
                let s3 := { s2 with
                  connectionGc := aupdate s2.connectionGc requestedConnectionId
                    { name := name, nspace := s.nspace } }
                let strim : Strim :=
                  { metadata :=
                      { name := some name
                        nspace := some s.nspace
                        annots := none
                        labels := none
                        ownerReferences := some
                          [{ apiVersion := "v1"
                             kind := "Pod"
                             name := s.podName
                             uid := s.podUid
                             controller := some true
                             blockOwnerDeletion := none }]
                        deletionTimestamp := none }
                    spec :=
                      { source :=
                          { internal_url :=
                              "rtmp://" ++ s.podIp ++ ":" ++ toString s.port
                                ++ "/live/" ++ streamKey }
                        target :=
                          { bucket := target.bucket
                            endpoint := target.endpoint
                            region := target.region
                            secret := target.secret
                            keyPfx := streamKey ++ "/"
                            deleteOldSegmentsAfter := none }
                        transcribe := true }
                    status := none }
                (s3, results, some strim)

/-- The sequence-header catch-up tail of `handle_play_requested`
(`server.rs`: "If the channel already has sequence headers, send them"): the
stored video sequence header, then the stored audio sequence header, each at
timestamp 0, are appended to the pending reply packets; a send failure (per
the `vidOk`/`audOk` oracles) emits only `DisconnectConnection`. -/
def handle_play_headers (vidOk audOk : Bool) (s1 : Server)
    (requestedConnectionId : Nat) (channel1 : MediaChannel)
    (rs : List MPacket) : Server × List ServerResult :=
  match channel1.videoSequenceHeader with
  | some d =>
      if vidOk then
        let rs2 := rs ++ [MPacket.video d 0]
        match channel1.audioSequenceHeader with
        | some a =>
            if audOk then
              (s1, (rs2 ++ [MPacket.audio a 0]).map
                (ServerResult.OutboundPacket requestedConnectionId))
            else
              (s1, [ServerResult.DisconnectConnection requestedConnectionId])
        | none =>
            (s1, rs2.map (ServerResult.OutboundPacket requestedConnectionId))
      else
        (s1, [ServerResult.DisconnectConnection requestedConnectionId])
  | none =>
      match channel1.audioSequenceHeader with
      | some a =>
          if audOk then
            (s1, (rs ++ [MPacket.audio a 0]).map
              (ServerResult.OutboundPacket requestedConnectionId))
          else
            (s1, [ServerResult.DisconnectConnection requestedConnectionId])
      | none =>
          (s1, rs.map (ServerResult.OutboundPacket requestedConnectionId))

/-- `Server::handle_play_requested` in `server.rs`.

Oracles: `acceptOutcome` for the session's `accept_request`; `metaOk`,
`vidOk`, `audOk` for the fallibility of `send_metadata`, `send_video_data`
and `send_audio_data` on the catch-up packets.  The client is moved to
`Watching` and added to the channel's watcher set *before* acceptance (those
mutations persist even on the failure paths, as in the source).  On success
the catch-up packets — stored metadata, then the video sequence header at
timestamp 0, then the audio sequence header at timestamp 0 — are appended to
the accept replies, and all are emitted to the requesting connection; any
send failure instead emits only `DisconnectConnection`. -/
def handle_play_requested (acceptOutcome : Option (List MPacket))
    (metaOk vidOk audOk : Bool) (s : Server)
    (requestedConnectionId _requestId : Nat) (streamKey : String)
    (streamId : Nat) : Server × List ServerResult :=
  match alookup s.connectionToClientMap requestedConnectionId with
  | none => (s, [])
  | some clientId =>
      match alookup s.clients clientId with
      | none => (s, [])
      | some client =>
          let client1 :=
            { client with
              currentAction := InboundClientAction.Watching streamKey streamId }
          let channel0 := (alookup s.channels streamKey).getD emptyChannel
          let channel1 :=
            { channel0 with
              watchingClientIds := hsInsert channel0.watchingClientIds clientId }
          let s1 := { s with
            clients := aupdate s.clients clientId client1
            channels := aupdate s.channels streamKey channel1 }
          match acceptOutcome with
          | none =>
              (s1, [ServerResult.DisconnectConnection requestedConnectionId])
          | some rs =>
              match channel1.metadata with
              | some m =>
                  if metaOk then
                    let rs1 := rs ++ [MPacket.meta m]
                    handle_play_headers vidOk audOk s1 requestedConnectionId
                      channel1 rs1
                  else
                    (s1, [ServerResult.DisconnectConnection requestedConnectionId])
              | none =>
                  handle_play_headers vidOk audOk s1 requestedConnectionId
                    channel1 rs

/-! ## Reconciler (`src/operator/src/strims/reconcile.rs`,
`src/operator/src/strims/actions.rs`)

Kubernetes API calls are modelled by an `ApiResponse` oracle per call; the
`chrono` RFC-3339 parser is an oracle `parseTs : String → Option Int`
(epoch milliseconds), with `now : Int` the current time. -/

/-- Modelled from the spec: the annotation names written by the reconciler
(`strim_common::annotations`, whose source file is not in the repository
snapshot): "Pod annotations written by reconciler: `strim.beebs.dev/spec-hash`
(opaque hex), `strim.beebs.dev/created-by = strim-operator`". -/
def SPEC_HASH_ANNOT : String := "strim.beebs.dev/spec-hash"

/-- Modelled from the spec: the `created-by` annotation name (see
`SPEC_HASH_ANNOT`). -/
def CREATED_BY_ANNOT : String := "strim.beebs.dev/created-by"

/-- A canonical flat serialization of a `StrimSpec`, input to `hash_spec`. -/
def canonicalSpecString (spec : StrimSpec) : String :=
  spec.source.internal_url ++ "|" ++ spec.target.bucket ++ "|"
    ++ spec.target.endpoint ++ "|" ++ spec.target.region ++ "|"
    ++ spec.target.secret ++ "|" ++ spec.target.keyPfx ++ "|"
    ++ (spec.target.deleteOldSegmentsAfter.getD "") ++ "|"
    ++ (if spec.transcribe then "true" else "false")

/-- Modelled from the spec: `util::hash_spec` (its source file under
`src/operator/src/util/` is not in the repository snapshot).  The spec
requires only "a stable canonical hash of the Pipeline `spec` ... (opaque
hex)"; modelled as 64-bit FNV-1a of a canonical serialization, in hex. -/
def hash_spec (spec : StrimSpec) : String :=
  hexDigest (beBytes 8
    ((strBytes (canonicalSpecString spec)).foldl
      (fun h b => ((h ^^^ b) * 1099511628211) % 18446744073709551616)
      14695981039346656037))

/-- `k8s_openapi` `ContainerStateTerminated`, the fields the reconciler
reads. -/
structure ContainerStateTerminated where
  exitCode : Int
  reason : Option String
  deriving DecidableEq, Repr

/-- `k8s_openapi` `ContainerState`; the reconciler only reads the
`terminated` variant. -/
structure ContainerState where
  terminated : Option ContainerStateTerminated
  deriving DecidableEq, Repr

/-- `k8s_openapi` `ContainerStatus`, the fields the reconciler reads. -/
structure ContainerStatus where
  state : Option ContainerState
  deriving DecidableEq, Repr

/-- `k8s_openapi` `PodStatus`, the fields the reconciler reads. -/
structure PodStatus where
  phase : Option String
  containerStatuses : Option (List ContainerStatus)
  deriving DecidableEq, Repr

/-- A Kubernetes `Pod` as observed by the reconciler (the `PodSpec` is
written by `pod_resource` but never read back by the decision logic). -/
structure KPod where
  metadata : ObjectMeta
  status : Option PodStatus
  deriving DecidableEq, Repr

/-- Outcome of one Kubernetes API call: success, an API error with a status
code (404, 409, ...), or a transport-level error. -/
inductive ApiResponse (α : Type)
  | ok (a : α)
  | apiErr (code : Nat)
  | transportErr
  deriving DecidableEq, Repr

/-- enum `Error` in `src/operator/src/util/` as used by the reconcile path:
user-input errors carry a message; cluster-API, timestamp-parse
(`chrono::ParseError`) and out-of-range (`Duration::to_std` on a negative
age) errors are the other `From`-converted variants. -/
inductive OpError
  | userInput (msg : String)
  | clusterApi
  | parseErr
  | rangeErr
  deriving DecidableEq, Repr

/-- enum `StrimAction` in `reconcile.rs` (`Requeue` durations in
milliseconds). -/
inductive StrimAction
  | CreatePod
  | DeletePod
  | Starting (podName : String)
  | Active (podName : String)
  | Error (msg : String)
  | NoOp
  | Requeue (millis : Nat)
  deriving DecidableEq, Repr

/-- `PROBE_INTERVAL` in `src/operator/src/util/mod.rs`
(`Duration::from_secs(30)`), in milliseconds. -/
def PROBE_INTERVAL : Int := 30000

/-- `fn get_pod` in `reconcile.rs`: a 404 API error is `Ok(None)`; every
other error propagates. -/
def get_pod (resp : ApiResponse KPod) : Except OpError (Option KPod) :=
  match resp with
  | ApiResponse.ok pod => Except.ok (some pod)
  | ApiResponse.apiErr code =>
      if code = 404 then Except.ok none else Except.error OpError.clusterApi
  | ApiResponse.transportErr => Except.error OpError.clusterApi

/-- `fn get_strim_phase` in `reconcile.rs`: errors when the record has no
status or no `lastUpdated`, when the timestamp fails to parse, or when the
age `now - lastUpdated` is negative (`chrono::Duration::to_std`); otherwise
the phase and the age. -/
def get_strim_phase (parseTs : String → Option Int) (now : Int)
    (inst : Strim) : Except OpError (StrimPhase × Int) :=
  match inst.status with
  | none => Except.error (OpError.userInput "No status")
  | some status =>
      match status.lastUpdated with
      | none => Except.error (OpError.userInput "No lastUpdated")
      | some tsStr =>
          match parseTs tsStr with
          | none => Except.error OpError.parseErr
          | some t =>
              let age := now - t
              if age < 0 then Except.error OpError.rangeErr
              else Except.ok (status.phase, age)

/-- `fn determine_status_action` in `reconcile.rs`: `Active` when the phase
is not `Active` or the `lastUpdated` age exceeds `PROBE_INTERVAL`, else
`NoOp`; `get_strim_phase` errors propagate.  (The source unwraps the
record's name; a missing name is modelled as `""`.) -/
def determine_status_action (parseTs : String → Option Int) (now : Int)
    (inst : Strim) : Except OpError StrimAction :=
  match get_strim_phase parseTs now inst with
  | Except.error e => Except.error e
  | Except.ok (phase, age) =>
      if phase ≠ StrimPhase.Active ∨ age > PROBE_INTERVAL then
        Except.ok (StrimAction.Active (inst.metadata.name.getD ""))
      else
        Except.ok StrimAction.NoOp

/-- The `container_statuses` sweep in `determine_action` (`reconcile.rs`):
does any container state hold a `terminated`? -/
def podHasTerminatedContainer (pod : KPod) : Bool :=
  match pod.status with
  | some st =>
      match st.containerStatuses with
      | some css =>
          css.any (fun cs =>
            match cs.state with
            | some state => state.terminated.isSome
            | none => false)
      | none => false
  | none => false

/-- The spec-hash annotation comparison in `determine_action`
(`reconcile.rs`):
`pod.metadata.annotations.is_some_and(|a| a.get(HASH) == Some(&desired))`. -/
def podHashMatches (pod : KPod) (desired : String) : Bool :=
  match pod.metadata.annots with
  | some a => alookup a SPEC_HASH_ANNOT == some desired
  | none => false

/-- `fn determine_action` in `reconcile.rs`.  In source order: requeue while
the record is being deleted; `get_pod` (404 → `CreatePod`); requeue while the
pod is being deleted; `DeletePod` on spec-hash mismatch; then match on the
pod phase — Pending/ContainerCreating → `Starting` (or `NoOp` if the status
phase is already Starting), Succeeded/Failed → `DeletePod`, anything other
than Running → `Error`; for a Running pod, `DeletePod` if any container
terminated, else `determine_status_action`.  (The source unwraps the pod
name; a missing name is modelled as `""`.) -/
def determine_action (parseTs : String → Option Int) (now : Int)
    (podResp : ApiResponse KPod) (inst : Strim) :
    Except OpError StrimAction :=
  if inst.metadata.deletionTimestamp.isSome then
    Except.ok (StrimAction.Requeue 500)
  else
    match get_pod podResp with
    | Except.error e => Except.error e
    | Except.ok none => Except.ok StrimAction.CreatePod
    | Except.ok (some pod) =>
        if pod.metadata.deletionTimestamp.isSome then
          Except.ok (StrimAction.Requeue 500)
        else if ¬ podHashMatches pod (hash_spec inst.spec) then
          Except.ok StrimAction.DeletePod
        else
          match pod.status.bind (fun s => s.phase) with
          | some phase =>
              if phase = "Pending" ∨ phase = "ContainerCreating" then
                if (match inst.status with
                    | some s => s.phase = StrimPhase.Starting
                    | none => false : Bool) then
                  Except.ok StrimAction.NoOp
                else
                  Except.ok (StrimAction.Starting (pod.metadata.name.getD ""))
              else if phase = "Running" then
                if podHasTerminatedContainer pod then
                  Except.ok StrimAction.DeletePod
                else
                  determine_status_action parseTs now inst
              else if phase = "Succeeded" ∨ phase = "Failed" then
                Except.ok StrimAction.DeletePod
              else
                Except.ok (StrimAction.Error "Pod is in unknown state.")
          | none => Except.ok (StrimAction.Error "Pod is in unknown state.")

/-- `fn instance_name` in `actions.rs`. -/
def instance_name (inst : Strim) : Except OpError String :=
  match inst.metadata.name with
  | some n => Except.ok n
  | none => Except.error (OpError.userInput "Strim is missing metadata.name")

/-- `fn instance_namespace` in `actions.rs`. -/
def instance_namespace (inst : Strim) : Except OpError String :=
  match inst.metadata.nspace with
  | some n => Except.ok n
  | none =>
      Except.error (OpError.userInput "Strim is missing metadata.namespace")

/-- The error mapping for one fallible, non-idempotent Kubernetes call (the
status patches): any API or transport error becomes a cluster-API error. -/
def apiResult (resp : ApiResponse Unit) : Except OpError Unit :=
  match resp with
  | ApiResponse.ok _ => Except.ok ()
  | ApiResponse.apiErr _ => Except.error OpError.clusterApi
  | ApiResponse.transportErr => Except.error OpError.clusterApi

/-- `fn create_pod` in `actions.rs`: build the pod resource (fails only on a
record with no name/namespace — the template body itself is infallible
data), patch the status to `Starting`, then create the pod, with a 409
Conflict from the cluster API treated as success. -/
def create_pod (inst : Strim) (patchResp createResp : ApiResponse Unit) :
    Except OpError Unit :=
  match instance_name inst with
  | Except.error e => Except.error e
  | Except.ok _ =>
      match instance_namespace inst with
      | Except.error e => Except.error e
      | Except.ok _ =>
          match apiResult patchResp with
          | Except.error e => Except.error e
          | Except.ok _ =>
              match createResp with
              | ApiResponse.ok _ => Except.ok ()
              | ApiResponse.apiErr code =>
                  if code = 409 then Except.ok ()
                  else Except.error OpError.clusterApi
              | ApiResponse.transportErr => Except.error OpError.clusterApi

/-- `fn delete_pod` in `actions.rs`: patch the status to `Pending` with the
deletion reason, then delete the pod, with a 404 Not Found from the cluster
API treated as success. -/
def delete_pod (inst : Strim) (_reason : String)
    (patchResp deleteResp : ApiResponse Unit) : Except OpError Unit :=
  match instance_name inst with
  | Except.error e => Except.error e
  | Except.ok _ =>
      match apiResult patchResp with
      | Except.error e => Except.error e
      | Except.ok _ =>
          match instance_namespace inst with
          | Except.error e => Except.error e
          | Except.ok _ =>
              match deleteResp with
              | ApiResponse.ok _ => Except.ok ()
              | ApiResponse.apiErr code =>
                  if code = 404 then Except.ok ()
                  else Except.error OpError.clusterApi
              | ApiResponse.transportErr => Except.error OpError.clusterApi

/-! ## HLS uploader worker (`src/peggy/src/app.rs`)

A file-system path delivered to the worker is modelled as its path relative
to the HLS directory (the source computes exactly this relative path via
`strip_prefix(&self.hls_dir)` before building the object key).  File-system
and S3 outcomes are oracles: `isDir`, `fileExists` (the
`tokio::fs::metadata` probe), `uploadOk` (the S3 `send`). -/

/-- Split a character list at a separator, keeping empty segments. -/
def splitChars (sep : Char) : List Char → List (List Char)
  | [] => [[]]
  | c :: rest =>
      let r := splitChars sep rest
      if c = sep then [] :: r
      else
        match r with
        | h :: t => (c :: h) :: t
        | [] => [[c]]

/-- `Path::file_name`: the last path component. -/
def fileName (p : String) : String :=
  String.mk ((splitChars '/' p.data).getLastD [])

/-- `Path::extension` (Rust semantics): the substring of the file name after
the last `.`, provided the part before that dot is nonempty; `none` when the
name has no dot or only a leading dot. -/
def fileExtension (p : String) : Option String :=
  let parts := splitChars '.' (fileName p).data
  match parts with
  | [] => none
  | [_] => none
  | [[], _] => none
  | _ => some (String.mk (parts.getLastD []))

example : fileExtension "index.m3u8" = some "m3u8" := by decide
example : fileExtension "sub/seg1.ts" = some "ts" := by decide
example : fileExtension "archive.tar.gz" = some "gz" := by decide
example : fileExtension ".hidden" = none := by decide
example : fileExtension "README" = none := by decide

/-- `str::starts_with('.')` on a file name: the dotfile check in the
worker loop. -/
def startsWithDot (s : String) : Bool :=
  match s.data with
  | c :: _ => c = '.'
  | [] => false

/-- The `put_object` builder state accumulated in `upload_to_s3`
(`app.rs`): each setter replaces the field. -/
structure PutBuilder where
  cacheControl : Option String
  bucket : Option String
  acl : Option String
  contentType : Option String
  key : Option String
  deriving DecidableEq, Repr

/-- The observable outcome of one successful `upload_to_s3` call: the
`put_object` request that was sent and whether the local file was removed
afterwards. -/
structure UploadRecord where
  put : PutBuilder
  removedLocal : Bool
  deriving DecidableEq, Repr

/-- `App::upload_to_s3` in `app.rs`.  A failed metadata probe returns `Ok`
without uploading; the MIME type is chosen by extension (anything unknown
gets `application/octet-stream` and a logged warning); the builder first
receives `cache_control("no-cache")` conditionally for `.m3u8` ("Disable
caching for playlists") and then unconditionally in the chained
`put.cache_control("no-cache").bucket(..)...` call; on a successful send the
local file is removed iff `remove`; a failed send returns the error (the
caller logs it) and removes nothing. -/
def upload_to_s3 (bucket keyPfx : String) (fileExists uploadOk : Bool)
    (p : String) (remove : Bool) : Option UploadRecord :=
  if ¬ fileExists then none
  else
    let mimetype :=
      match fileExtension p with
      | some "m3u8" => "application/vnd.apple.mpegurl"
      | some "ts" => "video/mp2t"
      | some "vtt" => "text/vtt"
      | _ => "application/octet-stream"
    let key := keyPfx ++ p
    let put : PutBuilder :=
      { cacheControl := none, bucket := none, acl := none
        contentType := none, key := none }
    let put :=
      if fileExtension p = some "m3u8" then
        { put with cacheControl := some "no-cache" }
      else put
    let put :=
      { put with
        cacheControl := some "no-cache"
        bucket := some bucket
        acl := some "public-read"
        contentType := some mimetype
        key := some key }
    if uploadOk then some { put := put, removedLocal := remove } else none

/-- `App::handle_segment` in `app.rs`: forwards to `upload_to_s3` with
`remove = true`. -/
def handle_segment (bucket keyPfx : String) (fileExists uploadOk : Bool)
    (p : String) : Option UploadRecord :=
  upload_to_s3 bucket keyPfx fileExists uploadOk p true

/-- The per-path dispatch of the uploader's main loop (`fn run` in
`app.rs`): skip directories and dotfiles; `.m3u8` → upload keeping the local
file, `.ts` → `handle_segment` (upload then delete), `.vtt` → upload then
delete; any other extension — and a path with no extension — falls into the
`_ => {}` arm and is not uploaded at all. -/
def process_path (bucket keyPfx : String) (isDir fileExists uploadOk : Bool)
    (p : String) : Option UploadRecord :=
  if isDir then none
  else if startsWithDot (fileName p) then none
  else
    match fileExtension p with
    | some ext =>
        if ext = "m3u8" then
          upload_to_s3 bucket keyPfx fileExists uploadOk p false
        else if ext = "ts" then
          handle_segment bucket keyPfx fileExists uploadOk p
        else if ext = "vtt" then
          upload_to_s3 bucket keyPfx fileExists uploadOk p true
        else none
    | none => none

/-! ## Concrete instances used by the claim theorems -/

/-- A concrete `StrimSpec` (the record the ingest server would create for
stream key `"abc"`). -/
def specAbc : StrimSpec :=
  { source := { internal_url := "rtmp://10.0.0.7:1935/live/abc" }
    target :=
      { bucket := "b", endpoint := "e", region := "r", secret := "s"
        keyPfx := "abc/", deleteOldSegmentsAfter := none }
    transcribe := true }

/-- Concrete object metadata with the given annotation map. -/
def mkMeta (annots : Option (List (String × String))) : ObjectMeta :=
  { name := some "ffmpeg-1a2b3c4d", nspace := some "default"
    annots := annots, labels := none, ownerReferences := none
    deletionTimestamp := none }

/-- A `Strim` record in phase `Starting`, for the reconcile-decision
theorems. -/
def c5inst : Strim :=
  { metadata := mkMeta none, spec := specAbc
    status := some
      { phase := StrimPhase.Starting, message := none
        lastUpdated := some "2026-01-01T00:00:00Z" } }

/-- A pod whose spec-hash annotation matches `c5inst`, in phase `Pending`,
with a terminated container. -/
def c5pod : KPod :=
  { metadata := mkMeta (some [(SPEC_HASH_ANNOT, hash_spec specAbc)])
    status := some
      { phase := some "Pending"
        containerStatuses := some
          [{ state := some
               { terminated := some { exitCode := 1, reason := none } } }] } }

/-- A `Strim` record with no status at all. -/
def c7inst : Strim :=
  { metadata := mkMeta none, spec := specAbc, status := none }

/-- A Running pod whose spec-hash annotation matches `specAbc`, with no
terminated container. -/
def c7pod : KPod :=
  { metadata := mkMeta (some [(SPEC_HASH_ANNOT, hash_spec specAbc)])
    status := some
      { phase := some "Running", containerStatuses := none } }

/-- A `Strim` record in phase `Active` with a stale `lastUpdated`. -/
def c7instActive : Strim :=
  { metadata := mkMeta none, spec := specAbc
    status := some
      { phase := StrimPhase.Active, message := none
        lastUpdated := some "2026-01-01T00:00:00Z" } }

/-- A channel for `"abc"` with a single watcher, client 0. -/
def watcherChannel : MediaChannel :=
  { publishingClientId := some 1, watchingClientIds := [0]
    metadata := none, videoSequenceHeader := none
    audioSequenceHeader := none }

/-- Client 0: watching `"abc"` on stream 11, connection 6, no keyframe
received yet. -/
def watcherClient : InboundClient :=
  { currentAction := InboundClientAction.Watching "abc" 11
    connectionId := 6, hasReceivedVideoKeyframe := false }

/-- A server with one watcher on channel `"abc"`. -/
def watcherServer : Server :=
  { podIp := "10.0.0.7", podName := "strim-0", podUid := "uid-1"
    port := 1935, nspace := "default", clients := [(0, watcherClient)]
    connectionToClientMap := [(6, 0)], connectionGc := []
    channels := [("abc", watcherChannel)], pushClient := none
    target := none }

/-! ## Claims -/

set_option maxRecDepth 40000

/-- C3: for every publish request on a stream key whose channel already has
`publishingClientId` set, the server emits `DisconnectConnection` for the
requesting connection and changes no state: the server value is returned
unchanged (first publisher and channel unaffected) and no Pipeline record is
enqueued. -/
theorem c3_duplicate_publish_rejected
    (acceptOutcome : Option (List MPacket)) (entropy : Nat) (s : Server)
    (connId reqId : Nat) (appName streamKey : String)
    (channel : MediaChannel) (p : Nat)
    (hch : alookup s.channels streamKey = some channel)
    (hp : channel.publishingClientId = some p) :
    handle_publish_requested acceptOutcome entropy s connId reqId appName
      streamKey
      = (s, [ServerResult.DisconnectConnection connId], none) := by
  unfold handle_publish_requested
  simp [hch, hp]

/-- Witness for C3 at a concrete server state with `"abc"` already being
published by client 0. -/
theorem c3_duplicate_publish_rejected_witness :
    handle_publish_requested none 7
      { podIp := "10.0.0.7", podName := "strim-0", podUid := "uid-1"
        port := 1935, nspace := "default"
        clients := [(0,
          { currentAction := InboundClientAction.Publishing "abc"
            connectionId := 5, hasReceivedVideoKeyframe := false })]
        connectionToClientMap := [(5, 0)], connectionGc := []
        channels := [("abc",
          { publishingClientId := some 0, watchingClientIds := []
            metadata := none, videoSequenceHeader := none
            audioSequenceHeader := none })]
        pushClient := none, target := none }
      6 1 "live" "abc"
      = ({ podIp := "10.0.0.7", podName := "strim-0", podUid := "uid-1"
           port := 1935, nspace := "default"
           clients := [(0,
             { currentAction := InboundClientAction.Publishing "abc"
               connectionId := 5, hasReceivedVideoKeyframe := false })]
           connectionToClientMap := [(5, 0)], connectionGc := []
           channels := [("abc",
             { publishingClientId := some 0, watchingClientIds := []
               metadata := none, videoSequenceHeader := none
               audioSequenceHeader := none })]
           pushClient := none, target := none },
         [ServerResult.DisconnectConnection 6], none) :=
  c3_duplicate_publish_rejected none 7 _ 6 1 "live" "abc"
    { publishingClientId := some 0, watchingClientIds := []
      metadata := none, videoSequenceHeader := none
      audioSequenceHeader := none }
    0 (by decide) (by decide)

/-- C10: when a target configuration is present and the publish is not a
duplicate, an `accept_request` error (pushing `DisconnectConnection`) does
not stop the pipeline handling: the `connectionGc` mapping is still
registered and the Pipeline record creation is still enqueued. -/
theorem c10_create_despite_accept_error
    (entropy : Nat) (s : Server) (connId reqId clientId : Nat)
    (appName streamKey : String) (client : InboundClient) (target : Target)
    (hnp : (match alookup s.channels streamKey with
            | some channel => channel.publishingClientId = none
            | none => True))
    (hmap : alookup s.connectionToClientMap connId = some clientId)
    (hcl : alookup s.clients clientId = some client)
    (htgt : s.target = some target) :
    (handle_publish_requested none entropy s connId reqId appName
        streamKey).2.2.isSome = true
    ∧ alookup (handle_publish_requested none entropy s connId reqId appName
        streamKey).1.connectionGc connId
        = some { name := (pod_name s.podIp streamKey entropy).1
                 nspace := s.nspace }
    ∧ (handle_publish_requested none entropy s connId reqId appName
        streamKey).2.1
        = [ServerResult.DisconnectConnection connId] := by
  unfold handle_publish_requested
  match hc : alookup s.channels streamKey with
  | none =>
      simp only [hc] at hnp ⊢
      simp [hmap, hcl, htgt, alookup_aupdate_self]
  | some channel =>
      simp only [hc] at hnp ⊢
      simp [hnp, hmap, hcl, htgt, alookup_aupdate_self]

/-- Witness for C10: a fresh key, a configured target, and a failing
`accept_request`. -/
theorem c10_create_despite_accept_error_witness :
    ((handle_publish_requested none 7
        { podIp := "10.0.0.7", podName := "strim-0", podUid := "uid-1"
          port := 1935, nspace := "default"
          clients := [(0,
            { currentAction := InboundClientAction.Waiting
              connectionId := 5, hasReceivedVideoKeyframe := false })]
          connectionToClientMap := [(5, 0)], connectionGc := []
          channels := [], pushClient := none
          target := some
            { bucket := "b", endpoint := "e", region := "r", secret := "s"
              keyPfx := "p/" } }
        5 1 "live" "abc").2.2.isSome = true)
    ∧ alookup (handle_publish_requested none 7
        { podIp := "10.0.0.7", podName := "strim-0", podUid := "uid-1"
          port := 1935, nspace := "default"
          clients := [(0,
            { currentAction := InboundClientAction.Waiting
              connectionId := 5, hasReceivedVideoKeyframe := false })]
          connectionToClientMap := [(5, 0)], connectionGc := []
          channels := [], pushClient := none
          target := some
            { bucket := "b", endpoint := "e", region := "r", secret := "s"
              keyPfx := "p/" } }
        5 1 "live" "abc").1.connectionGc 5
        = some { name := (pod_name "10.0.0.7" "abc" 7).1
                 nspace := "default" }
    ∧ (handle_publish_requested none 7
        { podIp := "10.0.0.7", podName := "strim-0", podUid := "uid-1"
          port := 1935, nspace := "default"
          clients := [(0,
            { currentAction := InboundClientAction.Waiting
              connectionId := 5, hasReceivedVideoKeyframe := false })]
          connectionToClientMap := [(5, 0)], connectionGc := []
          channels := [], pushClient := none
          target := some
            { bucket := "b", endpoint := "e", region := "r", secret := "s"
              keyPfx := "p/" } }
        5 1 "live" "abc").2.1
        = [ServerResult.DisconnectConnection 5] :=
  c10_create_despite_accept_error 7 _ 5 1 0 "live" "abc"
    { currentAction := InboundClientAction.Waiting
      connectionId := 5, hasReceivedVideoKeyframe := false }
    { bucket := "b", endpoint := "e", region := "r", secret := "s"
      keyPfx := "p/" }
    (by trivial) (by decide) (by decide) (by decide)

/-- C4: an accepted publish with a target configuration enqueues a Pipeline
record named `"ffmpeg-" ++` the first 8 hex characters of
`sha256(streamKey ++ podIp ++ nonce)`, with
`spec.source.internalUrl = "rtmp://<podIp>:<port>/live/" ++ streamKey`, an
owner reference to the current pod, and registers
`connectionId → {name, namespace}` in `connectionGc`. -/
theorem c4_pipeline_record_synthesis
    (rs : List MPacket) (entropy : Nat) (s : Server)
    (connId reqId clientId : Nat) (appName streamKey : String)
    (client : InboundClient) (target : Target)
    (hnp : (match alookup s.channels streamKey with
            | some channel => channel.publishingClientId = none
            | none => True))
    (hmap : alookup s.connectionToClientMap connId = some clientId)
    (hcl : alookup s.clients clientId = some client)
    (htgt : s.target = some target) :
    ∃ strim,
      (handle_publish_requested (some rs) entropy s connId reqId appName
          streamKey).2.2 = some strim
      ∧ strim.metadata.name = some ("ffmpeg-"
          ++ (hexDigest (sha256 (strBytes streamKey ++ strBytes s.podIp
                ++ leBytes 8 entropy))).take 8)
      ∧ strim.spec.source.internal_url
          = "rtmp://" ++ s.podIp ++ ":" ++ toString s.port ++ "/live/"
            ++ streamKey
      ∧ strim.metadata.ownerReferences = some
          [{ apiVersion := "v1", kind := "Pod", name := s.podName
             uid := s.podUid, controller := some true
             blockOwnerDeletion := none }]
      ∧ strim.metadata.nspace = some s.nspace
      ∧ alookup (handle_publish_requested (some rs) entropy s connId reqId
            appName streamKey).1.connectionGc connId
          = some { name := "ffmpeg-"
                     ++ (hexDigest (sha256 (strBytes streamKey
                           ++ strBytes s.podIp ++ leBytes 8 entropy))).take 8
                   nspace := s.nspace } := by
  unfold handle_publish_requested
  match hc : alookup s.channels streamKey with
  | none =>
      simp only [hc] at hnp ⊢
      simp [hmap, hcl, htgt, alookup_aupdate_self, pod_name, stream_hash]
  | some channel =>
      simp only [hc] at hnp ⊢
      simp [hnp, hmap, hcl, htgt, alookup_aupdate_self, pod_name, stream_hash]

/-- Witness for C4 at a concrete accepted publish of `"abc"`. -/
theorem c4_pipeline_record_synthesis_witness :
    ∃ strim,
      (handle_publish_requested (some []) 42
          { podIp := "10.0.0.7", podName := "strim-0", podUid := "uid-1"
            port := 1935, nspace := "default"
            clients := [(0,
              { currentAction := InboundClientAction.Waiting
                connectionId := 5, hasReceivedVideoKeyframe := false })]
            connectionToClientMap := [(5, 0)], connectionGc := []
            channels := [], pushClient := none
            target := some
              { bucket := "b", endpoint := "e", region := "r", secret := "s"
                keyPfx := "p/" } }
          5 1 "live" "abc").2.2 = some strim
      ∧ strim.metadata.name = some ("ffmpeg-"
          ++ (hexDigest (sha256 (strBytes "abc" ++ strBytes "10.0.0.7"
                ++ leBytes 8 42))).take 8)
      ∧ strim.spec.source.internal_url
          = "rtmp://" ++ "10.0.0.7" ++ ":" ++ toString (1935 : Nat)
            ++ "/live/" ++ "abc"
      ∧ strim.metadata.ownerReferences = some
          [{ apiVersion := "v1", kind := "Pod", name := "strim-0"
             uid := "uid-1", controller := some true
             blockOwnerDeletion := none }]
      ∧ strim.metadata.nspace = some "default"
      ∧ alookup (handle_publish_requested (some []) 42
            { podIp := "10.0.0.7", podName := "strim-0", podUid := "uid-1"
              port := 1935, nspace := "default"
              clients := [(0,
                { currentAction := InboundClientAction.Waiting
                  connectionId := 5, hasReceivedVideoKeyframe := false })]
              connectionToClientMap := [(5, 0)], connectionGc := []
              channels := [], pushClient := none
              target := some
                { bucket := "b", endpoint := "e", region := "r"
                  secret := "s", keyPfx := "p/" } }
            5 1 "live" "abc").1.connectionGc 5
          = some { name := "ffmpeg-"
                     ++ (hexDigest (sha256 (strBytes "abc"
                           ++ strBytes "10.0.0.7" ++ leBytes 8 42))).take 8
                   nspace := "default" } :=
  c4_pipeline_record_synthesis [] 42 _ 5 1 0 "live" "abc"
    { currentAction := InboundClientAction.Waiting
      connectionId := 5, hasReceivedVideoKeyframe := false }
    { bucket := "b", endpoint := "e", region := "r", secret := "s"
      keyPfx := "p/" }
    (by trivial) (by decide) (by decide) (by decide)

/-- C9: reconciler pod creation/deletion is idempotent at the API-error
level: `create_pod` succeeds on a 409 Conflict, `delete_pod` succeeds on a
404 Not Found, and a 404 on the pod get yields `Ok(None)` which
`determine_action` turns into `CreatePod` rather than an error. -/
theorem c9_idempotent_api_errors
    (inst : Strim) (n ns reason : String)
    (parseTs : String → Option Int) (now : Int)
    (hn : inst.metadata.name = some n)
    (hns : inst.metadata.nspace = some ns)
    (hdel : inst.metadata.deletionTimestamp = none) :
    create_pod inst (ApiResponse.ok ()) (ApiResponse.apiErr 409)
      = Except.ok ()
    ∧ delete_pod inst reason (ApiResponse.ok ()) (ApiResponse.apiErr 404)
      = Except.ok ()
    ∧ get_pod (ApiResponse.apiErr 404) = Except.ok none
    ∧ determine_action parseTs now (ApiResponse.apiErr 404) inst
      = Except.ok StrimAction.CreatePod := by
  refine ⟨?_, ?_, ?_, ?_⟩
  · simp [create_pod, instance_name, instance_namespace, apiResult, hn, hns]
  · simp [delete_pod, instance_name, instance_namespace, apiResult, hn, hns]
  · simp [get_pod]
  · simp [determine_action, get_pod, hdel]

/-- Witness for C9 at a concrete record. -/
theorem c9_idempotent_api_errors_witness :
    create_pod
        { metadata :=
            { name := some "ffmpeg-1a2b3c4d", nspace := some "default"
              annots := none, labels := none, ownerReferences := none
              deletionTimestamp := none }
          spec :=
            { source := { internal_url := "rtmp://10.0.0.7:1935/live/abc" }
              target :=
                { bucket := "b", endpoint := "e", region := "r"
                  secret := "s", keyPfx := "abc/"
                  deleteOldSegmentsAfter := none }
              transcribe := true }
          status := none }
        (ApiResponse.ok ()) (ApiResponse.apiErr 409) = Except.ok ()
    ∧ delete_pod
        { metadata :=
            { name := some "ffmpeg-1a2b3c4d", nspace := some "default"
              annots := none, labels := none, ownerReferences := none
              deletionTimestamp := none }
          spec :=
            { source := { internal_url := "rtmp://10.0.0.7:1935/live/abc" }
              target :=
                { bucket := "b", endpoint := "e", region := "r"
                  secret := "s", keyPfx := "abc/"
                  deleteOldSegmentsAfter := none }
              transcribe := true }
          status := none }
        "drift" (ApiResponse.ok ()) (ApiResponse.apiErr 404) = Except.ok ()
    ∧ get_pod (ApiResponse.apiErr 404) = Except.ok none
    ∧ determine_action (fun _ => some 0) 0 (ApiResponse.apiErr 404)
        { metadata :=
            { name := some "ffmpeg-1a2b3c4d", nspace := some "default"
              annots := none, labels := none, ownerReferences := none
              deletionTimestamp := none }
          spec :=
            { source := { internal_url := "rtmp://10.0.0.7:1935/live/abc" }
              target :=
                { bucket := "b", endpoint := "e", region := "r"
                  secret := "s", keyPfx := "abc/"
                  deleteOldSegmentsAfter := none }
              transcribe := true }
          status := none }
      = Except.ok StrimAction.CreatePod :=
  c9_idempotent_api_errors _ "ffmpeg-1a2b3c4d" "default" "drift"
    (fun _ => some 0) 0 (by decide) (by decide) (by decide)

/-- Inserting into the modelled `HashSet` always yields membership. -/
theorem mem_hsInsert_self (l : List Nat) (x : Nat) : x ∈ hsInsert l x := by
  unfold hsInsert
  split
  · assumption
  · simp

/-- C2: when a play request on `streamKey` is accepted (and the catch-up
sends succeed), the new watcher is sent, in order: the session's accept
replies, then the channel's stored metadata if present, then the stored
video sequence header at timestamp 0 if present, then the stored audio
sequence header at timestamp 0 if present — all in this one handler call,
hence before any post-join data packet; the watcher's client id is added to
the channel's watcher set and the client moves to `Watching`. -/
theorem c2_play_catchup
    (rs : List MPacket) (s : Server) (connId reqId streamId clientId : Nat)
    (streamKey : String) (client : InboundClient)
    (hmap : alookup s.connectionToClientMap connId = some clientId)
    (hcl : alookup s.clients clientId = some client) :
    (handle_play_requested (some rs) true true true s connId reqId streamKey
        streamId).2
      = (rs
          ++ (match ((alookup s.channels streamKey).getD
                emptyChannel).metadata with
              | some m => [MPacket.meta m]
              | none => [])
          ++ (match ((alookup s.channels streamKey).getD
                emptyChannel).videoSequenceHeader with
              | some d => [MPacket.video d 0]
              | none => [])
          ++ (match ((alookup s.channels streamKey).getD
                emptyChannel).audioSequenceHeader with
              | some a => [MPacket.audio a 0]
              | none => [])).map (ServerResult.OutboundPacket connId)
    ∧ alookup (handle_play_requested (some rs) true true true s connId reqId
          streamKey streamId).1.channels streamKey
        = some { (alookup s.channels streamKey).getD emptyChannel with
                 watchingClientIds :=
                   hsInsert ((alookup s.channels streamKey).getD
                     emptyChannel).watchingClientIds clientId }
    ∧ clientId ∈ hsInsert ((alookup s.channels streamKey).getD
          emptyChannel).watchingClientIds clientId
    ∧ alookup (handle_play_requested (some rs) true true true s connId reqId
          streamKey streamId).1.clients clientId
        = some { client with
                 currentAction :=
                   InboundClientAction.Watching streamKey streamId } := by
  unfold handle_play_requested handle_play_headers
  rcases hm : ((alookup s.channels streamKey).getD emptyChannel).metadata
    with _ | m <;>
  rcases hv : ((alookup s.channels streamKey).getD
      emptyChannel).videoSequenceHeader with _ | d <;>
  rcases ha : ((alookup s.channels streamKey).getD
      emptyChannel).audioSequenceHeader with _ | a <;>
  simp [hmap, hcl, hm, hv, ha, alookup_aupdate_self, mem_hsInsert_self]

/-- Witness for C2: a late joiner on a channel holding metadata and both
sequence headers. -/
theorem c2_play_catchup_witness :
    (handle_play_requested (some [MPacket.sessionReply 1]) true true true
        { podIp := "10.0.0.7", podName := "strim-0", podUid := "uid-1"
          port := 1935, nspace := "default"
          clients := [(0,
            { currentAction := InboundClientAction.Waiting
              connectionId := 6, hasReceivedVideoKeyframe := false })]
          connectionToClientMap := [(6, 0)], connectionGc := []
          channels := [("abc",
            { publishingClientId := some 9, watchingClientIds := []
              metadata := some 3
              videoSequenceHeader := some [0x17, 0x00, 0x01]
              audioSequenceHeader := some [0xaf, 0x00, 0x02] })]
          pushClient := none, target := none }
        6 2 "abc" 11).2
      = ([MPacket.sessionReply 1]
          ++ (match (some 3 : Option Nat) with
              | some m => [MPacket.meta m]
              | none => [])
          ++ (match (some [0x17, 0x00, 0x01] : Option (List Nat)) with
              | some d => [MPacket.video d 0]
              | none => [])
          ++ (match (some [0xaf, 0x00, 0x02] : Option (List Nat)) with
              | some a => [MPacket.audio a 0]
              | none => [])).map (ServerResult.OutboundPacket 6)
    ∧ alookup (handle_play_requested (some [MPacket.sessionReply 1]) true
          true true
          { podIp := "10.0.0.7", podName := "strim-0", podUid := "uid-1"
            port := 1935, nspace := "default"
            clients := [(0,
              { currentAction := InboundClientAction.Waiting
                connectionId := 6, hasReceivedVideoKeyframe := false })]
            connectionToClientMap := [(6, 0)], connectionGc := []
            channels := [("abc",
              { publishingClientId := some 9, watchingClientIds := []
                metadata := some 3
                videoSequenceHeader := some [0x17, 0x00, 0x01]
                audioSequenceHeader := some [0xaf, 0x00, 0x02] })]
            pushClient := none, target := none }
          6 2 "abc" 11).1.channels "abc"
        = some { publishingClientId := some 9
                 watchingClientIds := hsInsert [] 0
                 metadata := some 3
                 videoSequenceHeader := some [0x17, 0x00, 0x01]
                 audioSequenceHeader := some [0xaf, 0x00, 0x02] }
    ∧ (0 : Nat) ∈ hsInsert [] 0
    ∧ alookup (handle_play_requested (some [MPacket.sessionReply 1]) true
          true true
          { podIp := "10.0.0.7", podName := "strim-0", podUid := "uid-1"
            port := 1935, nspace := "default"
            clients := [(0,
              { currentAction := InboundClientAction.Waiting
                connectionId := 6, hasReceivedVideoKeyframe := false })]
            connectionToClientMap := [(6, 0)], connectionGc := []
            channels := [("abc",
              { publishingClientId := some 9, watchingClientIds := []
                metadata := some 3
                videoSequenceHeader := some [0x17, 0x00, 0x01]
                audioSequenceHeader := some [0xaf, 0x00, 0x02] })]
            pushClient := none, target := none }
          6 2 "abc" 11).1.clients 0
        = some { currentAction := InboundClientAction.Watching "abc" 11
                 connectionId := 6, hasReceivedVideoKeyframe := false } :=
  c2_play_catchup [MPacket.sessionReply 1] _ 6 2 11 0 "abc"
    { currentAction := InboundClientAction.Waiting
      connectionId := 6, hasReceivedVideoKeyframe := false }
    (by decide) (by decide)

/-- `determine_status_action` never decides `DeletePod`. -/
theorem determine_status_action_ne_DeletePod
    (parseTs : String → Option Int) (now : Int) (inst : Strim) :
    determine_status_action parseTs now inst
      ≠ Except.ok StrimAction.DeletePod := by
  unfold determine_status_action
  rcases hg : get_strim_phase parseTs now inst with e | ⟨ph, age⟩
  · simp
  · dsimp only
    split <;> simp

/-- C5 counterexample: a pod in phase `Pending` with a terminated container
and a matching spec hash is *not* recreated — `determine_action` returns
`NoOp` (the record already being `Starting`), although the claim's
disjunction ("any container state is terminated") holds. -/
theorem c5_counterexample :
    determine_action (fun _ => some 0) 0 (ApiResponse.ok c5pod) c5inst
        = Except.ok StrimAction.NoOp
    ∧ podHasTerminatedContainer c5pod = true
    ∧ podHashMatches c5pod (hash_spec c5inst.spec) = true
    ∧ c5pod.metadata.deletionTimestamp = none
    ∧ c5inst.metadata.deletionTimestamp = none := by
  refine ⟨by rfl, by decide, by decide, by decide, by decide⟩

/-- C5 (amended): for a reconcile whose pod exists and where neither the
record nor the pod is being deleted, `DeletePod` is decided iff the spec
hash mismatches, or the pod phase is Succeeded/Failed, or the pod phase is
Running *and* some container state is terminated (for a non-Running pod a
terminated container does not trigger recreation). -/
theorem c5_delete_decision_amended
    (parseTs : String → Option Int) (now : Int) (pod : KPod) (inst : Strim)
    (hdel : inst.metadata.deletionTimestamp = none)
    (hpdel : pod.metadata.deletionTimestamp = none) :
    determine_action parseTs now (ApiResponse.ok pod) inst
        = Except.ok StrimAction.DeletePod
      ↔ (podHashMatches pod (hash_spec inst.spec) = false
         ∨ pod.status.bind (fun st => st.phase) = some "Succeeded"
         ∨ pod.status.bind (fun st => st.phase) = some "Failed"
         ∨ (pod.status.bind (fun st => st.phase) = some "Running"
            ∧ podHasTerminatedContainer pod = true)) := by
  unfold determine_action
  simp only [hdel, get_pod, hpdel, Option.isSome_none, Bool.false_eq_true,
    if_false]
  by_cases hh : podHashMatches pod (hash_spec inst.spec)
  · rcases hph : pod.status.bind (fun st => st.phase) with _ | ph
    · simp [hh, hph]
    · by_cases h1 : ph = "Pending" ∨ ph = "ContainerCreating"
      · simp only [hh, hph, h1, if_true, not_true_eq_false,
          Bool.false_eq_true, if_false]
        constructor
        · intro hc
          split at hc <;> simp_all
        · intro hc
          rcases h1 with h | h <;> subst h <;>
            rcases hc with h | h | h | ⟨h, _⟩ <;> simp_all
      · by_cases h3 : ph = "Running"
        · subst h3
          by_cases ht : podHasTerminatedContainer pod
          · simp [hh, hph, ht, h1]
          · simp [hh, hph, ht, h1, determine_status_action_ne_DeletePod]
        · by_cases h4 : ph = "Succeeded" ∨ ph = "Failed"
          · simp only [hh, hph, h1, h3, h4, if_true, not_true_eq_false,
              Bool.false_eq_true, if_false]
            rcases h4 with h | h <;> subst h <;> simp_all
          · simp [hh, hph, h1, h3, h4]
  · simp only [Bool.not_eq_true] at hh
    simp [hh]

/-- Witness for the amended C5 at a pod with no annotations at all (hash
mismatch ⇒ `DeletePod`). -/
theorem c5_delete_decision_amended_witness :
    (determine_action (fun _ => some 0) 0
        (ApiResponse.ok { metadata := mkMeta none, status := none }) c5inst
        = Except.ok StrimAction.DeletePod
      ↔ (podHashMatches { metadata := mkMeta none, status := none }
            (hash_spec c5inst.spec) = false
         ∨ ({ metadata := mkMeta none, status := none } : KPod).status.bind
             (fun st => st.phase) = some "Succeeded"
         ∨ ({ metadata := mkMeta none, status := none } : KPod).status.bind
             (fun st => st.phase) = some "Failed"
         ∨ (({ metadata := mkMeta none, status := none } : KPod).status.bind
              (fun st => st.phase) = some "Running"
            ∧ podHasTerminatedContainer
                { metadata := mkMeta none, status := none } = true))) :=
  c5_delete_decision_amended (fun _ => some 0) 0
    { metadata := mkMeta none, status := none } c5inst
    (by decide) (by decide)

/-- C7 counterexample: for a Running pod with matching hash and no
terminated container, a record with *no status* makes `determine_action`
return a `UserInput` error ("No status") — the reconcile fails — rather
than deciding the `Active` action as the claim states. -/
theorem c7_counterexample :
    determine_action (fun _ => some 0) 0 (ApiResponse.ok c7pod) c7inst
        = Except.error (OpError.userInput "No status")
    ∧ c7pod.status.bind (fun st => st.phase) = some "Running"
    ∧ podHashMatches c7pod (hash_spec c7inst.spec) = true
    ∧ podHasTerminatedContainer c7pod = false
    ∧ c7inst.status = none := by
  refine ⟨by rfl, by decide, by decide, by decide, by decide⟩

/-- C7 (amended): for a reconcile of a record whose pod is Running with
matching spec hash and no terminated container, *provided the record has a
status whose `lastUpdated` parses and is not in the future*, the reconciler
decides `Active` iff the status phase is not `Active` or the `lastUpdated`
age exceeds `PROBE_INTERVAL`, and `NoOp` otherwise.  (With no status or no
`lastUpdated` the reconcile instead fails with a `UserInput` error — see the
counterexample.) -/
theorem c7_active_decision_amended
    (parseTs : String → Option Int) (now : Int) (pod : KPod) (inst : Strim)
    (st : StrimStatus) (tsStr : String) (t : Int)
    (hdel : inst.metadata.deletionTimestamp = none)
    (hpdel : pod.metadata.deletionTimestamp = none)
    (hh : podHashMatches pod (hash_spec inst.spec) = true)
    (hph : pod.status.bind (fun x => x.phase) = some "Running")
    (hterm : podHasTerminatedContainer pod = false)
    (hst : inst.status = some st)
    (hts : st.lastUpdated = some tsStr)
    (hparse : parseTs tsStr = some t)
    (hage : 0 ≤ now - t) :
    determine_action parseTs now (ApiResponse.ok pod) inst
      = Except.ok
          (if st.phase ≠ StrimPhase.Active ∨ now - t > PROBE_INTERVAL then
            StrimAction.Active (inst.metadata.name.getD "")
          else StrimAction.NoOp) := by
  have hnn : ¬ (now - t < 0) := not_lt.mpr hage
  unfold determine_action
  simp [hdel, get_pod, hpdel, hh, hph, hterm, determine_status_action,
    get_strim_phase, hst, hts, hparse, hnn]
  split <;> rfl

/-- Witness for the amended C7: a Running pod with a stale Active record. -/
theorem c7_active_decision_amended_witness :
    determine_action (fun _ => some 0) 40000 (ApiResponse.ok c7pod)
        c7instActive
      = Except.ok
          (if (StrimPhase.Active : StrimPhase) ≠ StrimPhase.Active
              ∨ (40000 : Int) - 0 > PROBE_INTERVAL then
            StrimAction.Active ((c7instActive.metadata.name).getD "")
          else StrimAction.NoOp) :=
  c7_active_decision_amended (fun _ => some 0) 40000 c7pod c7instActive
    { phase := StrimPhase.Active, message := none
      lastUpdated := some "2026-01-01T00:00:00Z" }
    "2026-01-01T00:00:00Z" 0
    (by decide) (by decide) (by decide) (by decide) (by decide) (by decide)
    (by decide) (by decide) (by decide)

/-- C6 counterexample: a `.ts` upload does carry `Cache-Control: no-cache`
(the chained builder call sets it unconditionally), contradicting "files
whose extension is not .m3u8 do not carry Cache-Control: no-cache"; and a
`.txt` file is not uploaded at all (the worker loop's `_ => {}` arm),
contradicting "uploaded with MIME application/octet-stream and kept". -/
theorem c6_counterexample :
    process_path "bkt" "p/" false true true "seg1.ts"
      = some { put :=
                 { cacheControl := some "no-cache", bucket := some "bkt"
                   acl := some "public-read"
                   contentType := some "video/mp2t"
                   key := some "p/seg1.ts" }
               removedLocal := true }
    ∧ process_path "bkt" "p/" false true true "notes.txt" = none := by
  refine ⟨by decide, by decide⟩

/-- C6 (amended): for every non-directory, non-dotfile path the worker
processes (with the file present and the S3 send succeeding): `.m3u8` is
uploaded as `application/vnd.apple.mpegurl` and kept, `.ts` as `video/mp2t`
and deleted, `.vtt` as `text/vtt` and deleted — every upload carrying
`Cache-Control: no-cache` and ACL public-read with key
`keyPrefix ++ relativePath`; a file with any other extension, or none, is
skipped without an upload. -/
theorem c6_upload_policy_amended (bucket keyPfx p : String)
    (hnd : startsWithDot (fileName p) = false) :
    (fileExtension p = some "m3u8" →
      process_path bucket keyPfx false true true p
        = some { put :=
                   { cacheControl := some "no-cache", bucket := some bucket
                     acl := some "public-read"
                     contentType := some "application/vnd.apple.mpegurl"
                     key := some (keyPfx ++ p) }
                 removedLocal := false })
    ∧ (fileExtension p = some "ts" →
      process_path bucket keyPfx false true true p
        = some { put :=
                   { cacheControl := some "no-cache", bucket := some bucket
                     acl := some "public-read"
                     contentType := some "video/mp2t"
                     key := some (keyPfx ++ p) }
                 removedLocal := true })
    ∧ (fileExtension p = some "vtt" →
      process_path bucket keyPfx false true true p
        = some { put :=
                   { cacheControl := some "no-cache", bucket := some bucket
                     acl := some "public-read"
                     contentType := some "text/vtt"
                     key := some (keyPfx ++ p) }
                 removedLocal := true })
    ∧ (∀ ext, fileExtension p = some ext → ext ≠ "m3u8" → ext ≠ "ts" →
        ext ≠ "vtt" →
        process_path bucket keyPfx false true true p = none)
    ∧ (fileExtension p = none →
        process_path bucket keyPfx false true true p = none) := by
  refine ⟨?_, ?_, ?_, ?_, ?_⟩
  · intro hext
    simp [process_path, upload_to_s3, hnd, hext]
  · intro hext
    simp [process_path, handle_segment, upload_to_s3, hnd, hext]
  · intro hext
    simp [process_path, upload_to_s3, hnd, hext]
  · intro ext hext h1 h2 h3
    simp [process_path, hnd, hext, h1, h2, h3]
  · intro hext
    simp [process_path, hnd, hext]

/-- The per-watcher flag update never changes the client's connection id. -/
theorem flagForData_connectionId (dt : ReceivedDataType) (data : List Nat)
    (c : InboundClient) :
    (flagForData dt data c).connectionId = c.connectionId := by
  cases dt <;> simp [flagForData]
  split <;> rfl

/-- Every result emitted by the watcher loop targets the connection id of
some member of the watcher list (as looked up in the incoming client map). -/
theorem route_watchers_target (sendOk : Nat → Bool) (dt : ReceivedDataType)
    (ts : Nat) (data : List Nat) :
    ∀ (ws : List Nat) (cl : List (Nat × InboundClient)) (r : ServerResult),
      r ∈ (route_watchers sendOk dt ts data ws cl).2 →
      ∃ id c', id ∈ ws ∧ alookup cl id = some c'
        ∧ targetConnId r = some c'.connectionId := by
  intro ws
  induction ws with
  | nil => intro cl r hr; simp [route_watchers] at hr
  | cons cid rest ih =>
      intro cl r hr
      unfold route_watchers at hr
      rcases hcl : alookup cl cid with _ | c
      · simp only [hcl] at hr
        obtain ⟨id, c', hid, hc', ht⟩ := ih cl r hr
        exact ⟨id, c', List.mem_cons_of_mem _ hid, hc', ht⟩
      · simp only [hcl] at hr
        rcases hsid : get_active_stream_id c with _ | sid
        · simp only [hsid] at hr
          obtain ⟨id, c', hid, hc', ht⟩ := ih cl r hr
          exact ⟨id, c', List.mem_cons_of_mem _ hid, hc', ht⟩
        · simp only [hsid] at hr
          by_cases hss : should_send_to_client dt c data = true
          · rw [if_pos hss] at hr
            dsimp only at hr
            rcases List.mem_cons.mp hr with hr | hr
            · refine ⟨cid, c, List.mem_cons_self _ _, hcl, ?_⟩
              subst hr
              by_cases hok : sendOk cid = true
              · rw [if_pos hok]
                simp [targetConnId]
              · rw [if_neg hok]
                simp [targetConnId]
            · obtain ⟨id, c', hid, hc', ht⟩ :=
                ih (aupdate cl cid (flagForData dt data c)) r hr
              by_cases hide : id = cid
              · subst hide
                rw [alookup_aupdate_self] at hc'
                refine ⟨id, c, List.mem_cons_self _ _, hcl, ?_⟩
                rw [ht]
                cases hc'
                rw [flagForData_connectionId]
              · rw [alookup_aupdate_ne _ _ _ _ hide] at hc'
                exact ⟨id, c', List.mem_cons_of_mem _ hid, hc', ht⟩
          · rw [if_neg hss] at hr
            obtain ⟨id, c', hid, hc', ht⟩ := ih cl r hr
            exact ⟨id, c', List.mem_cons_of_mem _ hid, hc', ht⟩

/-- Characterization of the watcher loop's output for one watcher `w` of
the list (Nodup, with `w`'s connection id unique among the watchers): the
loop emits an `OutboundPacket` carrying this payload to `w`'s connection
exactly when `w`'s client is actively watching, the per-watcher routing
decision holds, and the session send succeeds. -/
theorem route_watchers_mem (sendOk : Nat → Bool) (dt : ReceivedDataType)
    (ts : Nat) (data : List Nat) :
    ∀ (ws : List Nat) (cl : List (Nat × InboundClient)) (w : Nat)
      (c : InboundClient),
      w ∈ ws → ws.Nodup → alookup cl w = some c →
      (∀ w' c', w' ∈ ws → alookup cl w' = some c' →
        c'.connectionId = c.connectionId → w' = w) →
      ((ServerResult.OutboundPacket c.connectionId (mkDataPacket dt data ts)
          ∈ (route_watchers sendOk dt ts data ws cl).2)
        ↔ ((get_active_stream_id c).isSome = true
            ∧ should_send_to_client dt c data = true ∧ sendOk w = true)) := by
  intro ws
  induction ws with
  | nil => intro cl w c hw _ _ _; simp at hw
  | cons cid rest ih =>
      intro cl w c hw hnd hc hinj
      have hndrest : rest.Nodup := (List.nodup_cons.mp hnd).2
      have hcidrest : cid ∉ rest := (List.nodup_cons.mp hnd).1
      rcases List.mem_cons.mp hw with hw1 | hw2
      · subst hw1
        unfold route_watchers
        simp only [hc]
        rcases hsid : get_active_stream_id c with _ | sid
        · simp only [hsid]
          constructor
          · intro hmem
            obtain ⟨id, c', hid, hc', ht⟩ :=
              route_watchers_target sendOk dt ts data rest cl _ hmem
            simp only [targetConnId, Option.some.injEq] at ht
            have hidw := hinj id c' (List.mem_cons_of_mem _ hid) hc' ht.symm
            exact absurd (hidw ▸ hid) hcidrest
          · rintro ⟨his, _, _⟩
            simp at his
        · simp only [hsid]
          by_cases hss : should_send_to_client dt c data = true
          · rw [if_pos hss]
            dsimp only
            by_cases hok : sendOk w = true
            · rw [if_pos hok]
              constructor
              · intro _
                exact ⟨rfl, hss, hok⟩
              · intro _
                exact List.mem_cons_self _ _
            · rw [if_neg hok]
              constructor
              · intro hmem
                rcases List.mem_cons.mp hmem with heq | hmem2
                · simp at heq
                · obtain ⟨id, c', hid, hc', ht⟩ :=
                    route_watchers_target sendOk dt ts data rest
                      (aupdate cl w (flagForData dt data c)) _ hmem2
                  simp only [targetConnId, Option.some.injEq] at ht
                  have hidne : id ≠ w := fun h => hcidrest (h ▸ hid)
                  rw [alookup_aupdate_ne _ _ _ _ hidne] at hc'
                  have hidw := hinj id c' (List.mem_cons_of_mem _ hid) hc'
                    ht.symm
                  exact absurd (hidw ▸ hid) hcidrest
              · rintro ⟨_, _, hok'⟩
                exact absurd hok' hok
          · rw [if_neg hss]
            constructor
            · intro hmem
              obtain ⟨id, c', hid, hc', ht⟩ :=
                route_watchers_target sendOk dt ts data rest cl _ hmem
              simp only [targetConnId, Option.some.injEq] at ht
              have hidw := hinj id c' (List.mem_cons_of_mem _ hid) hc' ht.symm
              exact absurd (hidw ▸ hid) hcidrest
            · rintro ⟨_, hss', _⟩
              exact absurd hss' hss
      · have hwne : w ≠ cid := fun h => hcidrest (h ▸ hw2)
        have hinjrest : ∀ w' c', w' ∈ rest → alookup cl w' = some c' →
            c'.connectionId = c.connectionId → w' = w :=
          fun w' c' hw' => hinj w' c' (List.mem_cons_of_mem _ hw')
        unfold route_watchers
        rcases hclcid : alookup cl cid with _ | ccid
        · simp only [hclcid]
          exact ih cl w c hw2 hndrest hc hinjrest
        · simp only [hclcid]
          rcases hsidc : get_active_stream_id ccid with _ | sidc
          · simp only [hsidc]
            exact ih cl w c hw2 hndrest hc hinjrest
          · simp only [hsidc]
            by_cases hssc : should_send_to_client dt ccid data = true
            · rw [if_pos hssc]
              dsimp only
              have hclw : alookup (aupdate cl cid (flagForData dt data ccid)) w
                  = some c := by
                rw [alookup_aupdate_ne _ _ _ _ hwne]
                exact hc
              have hinj' : ∀ w' c', w' ∈ rest →
                  alookup (aupdate cl cid (flagForData dt data ccid)) w'
                    = some c' →
                  c'.connectionId = c.connectionId → w' = w := by
                intro w' c' hw' hcl' hcc
                have hw'ne : w' ≠ cid := fun h => hcidrest (h ▸ hw')
                rw [alookup_aupdate_ne _ _ _ _ hw'ne] at hcl'
                exact hinjrest w' c' hw' hcl' hcc
              have hih := ih (aupdate cl cid (flagForData dt data ccid)) w c
                hw2 hndrest hclw hinj'
              constructor
              · intro hmem
                rcases List.mem_cons.mp hmem with heq | hmem2
                · by_cases hokc : sendOk cid = true
                  · rw [if_pos hokc] at heq
                    simp only [ServerResult.OutboundPacket.injEq] at heq
                    have hcw := hinj cid ccid (List.mem_cons_self _ _) hclcid
                      heq.1.symm
                    exact absurd hcw.symm hwne
                  · rw [if_neg hokc] at heq
                    simp at heq
                · exact hih.mp hmem2
              · intro hrhs
                exact List.mem_cons_of_mem _ (hih.mpr hrhs)
            · rw [if_neg hssc]
              exact ih cl w c hw2 hndrest hc hinjrest

/-- Witness for the amended C6 at `index.m3u8`. -/
theorem c6_upload_policy_amended_witness :
    ((fileExtension "index.m3u8" = some "m3u8" →
      process_path "bkt" "p/" false true true "index.m3u8"
        = some { put :=
                   { cacheControl := some "no-cache", bucket := some "bkt"
                     acl := some "public-read"
                     contentType := some "application/vnd.apple.mpegurl"
                     key := some ("p/" ++ "index.m3u8") }
                 removedLocal := false })
    ∧ (fileExtension "index.m3u8" = some "ts" →
      process_path "bkt" "p/" false true true "index.m3u8"
        = some { put :=
                   { cacheControl := some "no-cache", bucket := some "bkt"
                     acl := some "public-read"
                     contentType := some "video/mp2t"
                     key := some ("p/" ++ "index.m3u8") }
                 removedLocal := true })
    ∧ (fileExtension "index.m3u8" = some "vtt" →
      process_path "bkt" "p/" false true true "index.m3u8"
        = some { put :=
                   { cacheControl := some "no-cache", bucket := some "bkt"
                     acl := some "public-read"
                     contentType := some "text/vtt"
                     key := some ("p/" ++ "index.m3u8") }
                 removedLocal := true })
    ∧ (∀ ext, fileExtension "index.m3u8" = some ext → ext ≠ "m3u8" →
        ext ≠ "ts" → ext ≠ "vtt" →
        process_path "bkt" "p/" false true true "index.m3u8" = none)
    ∧ (fileExtension "index.m3u8" = none →
        process_path "bkt" "p/" false true true "index.m3u8" = none)) :=
  c6_upload_policy_amended "bkt" "p/" "index.m3u8" (by decide)

/-- Client-map entries of ids outside the watcher list are untouched by the
watcher loop. -/
theorem route_watchers_untouched (sendOk : Nat → Bool) (dt : ReceivedDataType)
    (ts : Nat) (data : List Nat) :
    ∀ (ws : List Nat) (cl : List (Nat × InboundClient)) (w : Nat),
      w ∉ ws →
      alookup (route_watchers sendOk dt ts data ws cl).1 w = alookup cl w := by
  intro ws
  induction ws with
  | nil => intro cl w _; rfl
  | cons cid rest ih =>
      intro cl w hw
      have hwne : w ≠ cid := fun h => hw (h ▸ List.mem_cons_self _ _)
      have hwrest : w ∉ rest := fun h => hw (List.mem_cons_of_mem _ h)
      unfold route_watchers
      rcases hcl : alookup cl cid with _ | c
      · simp only [hcl]
        exact ih cl w hwrest
      · simp only [hcl]
        rcases hsid : get_active_stream_id c with _ | sid
        · simp only [hsid]
          exact ih cl w hwrest
        · simp only [hsid]
          by_cases hss : should_send_to_client dt c data = true
          · rw [if_pos hss]
            dsimp only
            rw [ih (aupdate cl cid (flagForData dt data c)) w hwrest]
            exact alookup_aupdate_ne _ _ _ _ hwne
          · rw [if_neg hss]
            exact ih cl w hwrest

/-- After the watcher loop, an actively-watching member `w` of a
duplicate-free watcher list holds `flagForData dt data c` when the routing
decision fired — the flag update happens whether or not the send succeeded —
and its old client value otherwise. -/
theorem route_watchers_flag (sendOk : Nat → Bool) (dt : ReceivedDataType)
    (ts : Nat) (data : List Nat) :
    ∀ (ws : List Nat) (cl : List (Nat × InboundClient)) (w : Nat)
      (c : InboundClient),
      w ∈ ws → ws.Nodup → alookup cl w = some c →
      (get_active_stream_id c).isSome = true →
      alookup (route_watchers sendOk dt ts data ws cl).1 w
        = some (if should_send_to_client dt c data = true
            then flagForData dt data c else c) := by
  intro ws
  induction ws with
  | nil => intro cl w c hw; simp at hw
  | cons cid rest ih =>
      intro cl w c hw hnd hc hsid
      have hndrest : rest.Nodup := (List.nodup_cons.mp hnd).2
      have hcidrest : cid ∉ rest := (List.nodup_cons.mp hnd).1
      rcases List.mem_cons.mp hw with hw1 | hw2
      · subst hw1
        unfold route_watchers
        simp only [hc]
        rcases hsidv : get_active_stream_id c with _ | sid
        · rw [hsidv] at hsid
          simp at hsid
        · simp only [hsidv]
          by_cases hss : should_send_to_client dt c data = true
          · rw [if_pos hss]
            dsimp only
            rw [route_watchers_untouched sendOk dt ts data rest _ w hcidrest]
            rw [alookup_aupdate_self]
            rw [if_pos hss]
          · rw [if_neg hss]
            rw [route_watchers_untouched sendOk dt ts data rest cl w hcidrest]
            rw [hc, if_neg hss]
      · have hwne : w ≠ cid := fun h => hcidrest (h ▸ hw2)
        unfold route_watchers
        rcases hclcid : alookup cl cid with _ | ccid
        · simp only [hclcid]
          exact ih cl w c hw2 hndrest hc hsid
        · simp only [hclcid]
          rcases hsidc : get_active_stream_id ccid with _ | sidc
          · simp only [hsidc]
            exact ih cl w c hw2 hndrest hc hsid
          · simp only [hsidc]
            by_cases hssc : should_send_to_client dt ccid data = true
            · rw [if_pos hssc]
              dsimp only
              refine ih _ w c hw2 hndrest ?_ hsid
              rw [alookup_aupdate_ne _ _ _ _ hwne]
              exact hc
            · rw [if_neg hssc]
              exact ih cl w c hw2 hndrest hc hsid

/-- The push-forwarding tail never emits a packet to a connection other than
the push client's own. -/
theorem pushForward_not_target (pushPublishOk : Bool)
    (pc? : Option PushClient) (pkt pkt2 : MPacket) (tgt : Nat)
    (h : ∀ pc pcid, pc? = some pc → pc.connectionId = some pcid →
      pcid ≠ tgt) :
    ServerResult.OutboundPacket tgt pkt2
      ∉ pushForward pushPublishOk pc? pkt := by
  rcases pc? with _ | pc
  · simp [pushForward]
  · unfold pushForward
    dsimp only
    by_cases hst : pc.state = PushState.Pushing
    · rw [if_pos hst]
      by_cases hok : pushPublishOk = true
      · rw [if_pos hok]
        rcases hcid : pc.connectionId with _ | pcid
        · simp
        · have hne := h pc pcid rfl hcid
          simp [hcid]
          intro heq
          exact absurd heq.symm hne
      · rw [if_neg hok]
        simp
    · rw [if_neg hst]
      simp

/-- C1: for a payload arriving on a channel and an actively-watching member
`w` of its (duplicate-free) watcher set whose connection id is unique among
the watchers and distinct from the push client's, and whose session send
succeeds, the handler sends the payload to `w` iff `w` has already received
a video keyframe, or the payload is a video sequence header or video
keyframe, or it is an audio sequence header; in particular a video packet
reaching a watcher whose flag is still false is a sequence header or
keyframe, and audio before the first keyframe is suppressed except audio
sequence headers. -/
theorem c1_send_decision
    (sendOk : Nat → Bool) (pushPublishOk : Bool) (s : Server)
    (streamKey : String) (ts : Nat) (data : List Nat) (dt : ReceivedDataType)
    (channel : MediaChannel) (w : Nat) (c : InboundClient)
    (hch : alookup s.channels streamKey = some channel)
    (hw : w ∈ channel.watchingClientIds)
    (hnd : channel.watchingClientIds.Nodup)
    (hc : alookup s.clients w = some c)
    (hsid : (get_active_stream_id c).isSome = true)
    (hok : sendOk w = true)
    (hinj : ∀ w' c', w' ∈ channel.watchingClientIds →
      alookup s.clients w' = some c' → c'.connectionId = c.connectionId →
      w' = w)
    (hpush : ∀ pc pcid, s.pushClient = some pc →
      pc.connectionId = some pcid → pcid ≠ c.connectionId) :
    ((ServerResult.OutboundPacket c.connectionId (mkDataPacket dt data ts))
        ∈ (handle_audio_video_data_received sendOk pushPublishOk s streamKey
            ts data dt).2)
      ↔ (c.hasReceivedVideoKeyframe = true
          ∨ (dt = ReceivedDataType.Video
             ∧ (is_video_sequence_header data = true
                ∨ is_video_keyframe data = true))
          ∨ (dt = ReceivedDataType.Audio
             ∧ is_audio_sequence_header data = true)) := by
  have hpf := pushForward_not_target pushPublishOk s.pushClient
    (mkDataPacket dt data ts) (mkDataPacket dt data ts) c.connectionId hpush
  have hrw := route_watchers_mem sendOk dt ts data channel.watchingClientIds
    s.clients w c hw hnd hc hinj
  have hcond : (should_send_to_client dt c data = true)
      ↔ (c.hasReceivedVideoKeyframe = true
          ∨ (dt = ReceivedDataType.Video
             ∧ (is_video_sequence_header data = true
                ∨ is_video_keyframe data = true))
          ∨ (dt = ReceivedDataType.Audio
             ∧ is_audio_sequence_header data = true)) := by
    cases dt <;> simp [should_send_to_client]
  rw [← hcond]
  cases dt
  case Audio =>
    unfold handle_audio_video_data_received
    simp only [hch]
    by_cases hhdr : is_audio_sequence_header data = true
    · rw [if_pos hhdr]
      dsimp only
      rw [List.mem_append, hrw]
      simp [hsid, hok, hpf]
    · rw [if_neg hhdr]
      rw [List.mem_append, hrw]
      simp [hsid, hok, hpf]
  case Video =>
    unfold handle_audio_video_data_received
    simp only [hch]
    by_cases hhdr : is_video_sequence_header data = true
    · rw [if_pos hhdr]
      dsimp only
      rw [List.mem_append, hrw]
      simp [hsid, hok, hpf]
    · rw [if_neg hhdr]
      rw [List.mem_append, hrw]
      simp [hsid, hok, hpf]

/-- Witness for C1: a keyframe reaching the single watcher of `"abc"`. -/
theorem c1_send_decision_witness :
    ((ServerResult.OutboundPacket 6
        (mkDataPacket ReceivedDataType.Video [0x17, 0x01] 5))
        ∈ (handle_audio_video_data_received (fun _ => true) false
            watcherServer "abc" 5 [0x17, 0x01] ReceivedDataType.Video).2)
      ↔ (false = true
          ∨ (ReceivedDataType.Video = ReceivedDataType.Video
             ∧ (is_video_sequence_header [0x17, 0x01] = true
                ∨ is_video_keyframe [0x17, 0x01] = true))
          ∨ (ReceivedDataType.Video = ReceivedDataType.Audio
             ∧ is_audio_sequence_header [0x17, 0x01] = true)) :=
  c1_send_decision (fun _ => true) false watcherServer "abc" 5 [0x17, 0x01]
    ReceivedDataType.Video watcherChannel 0 watcherClient
    (by decide) (by decide) (by decide) (by decide) (by decide) (by decide)
    (by
      intro w' c' hw' hcl' hconn
      simp [watcherChannel] at hw'
      exact hw')
    (fun pc pcid h => nomatch h)

/-- C8 counterexample: a video keyframe routed to a watcher whose send
*fails* (the handler emits only `DisconnectConnection`, no packet) still
leaves the watcher's `hasReceivedVideoKeyframe` flag set to `true` — the
flag is written before the send is attempted, so it is not set "only after a
successful send". -/
theorem c8_counterexample :
    (handle_audio_video_data_received (fun _ => false) false watcherServer
        "abc" 5 [0x17, 0x01] ReceivedDataType.Video).2
      = [ServerResult.DisconnectConnection 6]
    ∧ (alookup (handle_audio_video_data_received (fun _ => false) false
          watcherServer "abc" 5 [0x17, 0x01]
          ReceivedDataType.Video).1.clients 0).map
        (fun x => x.hasReceivedVideoKeyframe)
      = some true := by
  refine ⟨by decide, by decide⟩

/-- C8 (amended): for an actively-watching member `w` of a duplicate-free
watcher set, after the handler runs the watcher's flag equals its old value
OR-ed with "the payload is a video keyframe" — i.e. the flag is set exactly
when a video keyframe is routed to that watcher, immediately before the send
attempt and thus regardless of whether the send succeeds. -/
theorem c8_flag_set_amended
    (sendOk : Nat → Bool) (pushPublishOk : Bool) (s : Server)
    (streamKey : String) (ts : Nat) (data : List Nat) (dt : ReceivedDataType)
    (channel : MediaChannel) (w : Nat) (c : InboundClient)
    (hch : alookup s.channels streamKey = some channel)
    (hw : w ∈ channel.watchingClientIds)
    (hnd : channel.watchingClientIds.Nodup)
    (hc : alookup s.clients w = some c)
    (hsid : (get_active_stream_id c).isSome = true) :
    (alookup (handle_audio_video_data_received sendOk pushPublishOk s
        streamKey ts data dt).1.clients w).map
        (fun x => x.hasReceivedVideoKeyframe)
      = some (c.hasReceivedVideoKeyframe
          || (if dt = ReceivedDataType.Video then is_video_keyframe data
              else false)) := by
  have hfl := route_watchers_flag sendOk dt ts data channel.watchingClientIds
    s.clients w c hw hnd hc hsid
  cases dt
  case Audio =>
    unfold handle_audio_video_data_received
    simp only [hch]
    by_cases hhdr : is_audio_sequence_header data = true
    · rw [if_pos hhdr]
      dsimp only
      rw [hfl]
      by_cases hss : should_send_to_client ReceivedDataType.Audio c data = true
      · rw [if_pos hss]
        simp [flagForData]
      · rw [if_neg hss]
        simp
    · rw [if_neg hhdr]
      rw [hfl]
      by_cases hss : should_send_to_client ReceivedDataType.Audio c data = true
      · rw [if_pos hss]
        simp [flagForData]
      · rw [if_neg hss]
        simp
  case Video =>
    unfold handle_audio_video_data_received
    simp only [hch]
    by_cases hhdr : is_video_sequence_header data = true
    · rw [if_pos hhdr]
      dsimp only
      rw [hfl]
      by_cases hss : should_send_to_client ReceivedDataType.Video c data = true
      · rw [if_pos hss]
        by_cases hkf : is_video_keyframe data = true <;>
          simp [flagForData, hkf]
      · rw [if_neg hss]
        simp only [Bool.not_eq_true, should_send_to_client,
          Bool.or_eq_false_iff] at hss
        simp [hss.2.2]
    · rw [if_neg hhdr]
      rw [hfl]
      by_cases hss : should_send_to_client ReceivedDataType.Video c data = true
      · rw [if_pos hss]
        by_cases hkf : is_video_keyframe data = true <;>
          simp [flagForData, hkf]
      · rw [if_neg hss]
        simp only [Bool.not_eq_true, should_send_to_client,
          Bool.or_eq_false_iff] at hss
        simp [hss.2.2]

/-- Witness for the amended C8: the keyframe's flag update happens even with
a failing send oracle. -/
theorem c8_flag_set_amended_witness :
    (alookup (handle_audio_video_data_received (fun _ => false) false
        watcherServer "abc" 5 [0x17, 0x01]
        ReceivedDataType.Video).1.clients 0).map
        (fun x => x.hasReceivedVideoKeyframe)
      = some (false
          || (if (ReceivedDataType.Video : ReceivedDataType)
                = ReceivedDataType.Video then
              is_video_keyframe [0x17, 0x01]
            else false)) :=
  c8_flag_set_amended (fun _ => false) false watcherServer "abc" 5
    [0x17, 0x01] ReceivedDataType.Video watcherChannel 0 watcherClient
    (by decide) (by decide) (by decide) (by decide) (by decide)


end StrimVerify
